import Mathlib

/-!
A shallow embedding of the AGON MOS command interpreter pipeline
(`src/mos.c`): the tokenizer (`mos_strtok_r`), trimming (`mos_trim`),
argument parsers (`mos_parseNumber`, `mos_parseString`), the command
table and dispatch (`mos_getCommand`, `mos_exec`), the loader and its
memory-safety guard (`mos_LOAD`), binary header detection and dispatch
(`mos_execMode`, `mos_runBin`), the variable-removal command
(`mos_cmdUNSET`), and the file-handle API guards (`mos_GETFIL`,
`mos_FREAD`, `mos_FWRITE`, `mos_FLSEEK`).

C buffers are modelled as `List Char` (the array contents); C pointers
into a buffer are `Nat` indices; reading past the end of the list
yields the NUL character, matching a NUL-terminated buffer.  Machine
integers are `Nat` with explicit `% 2^24` where 24-bit overflow
matters.  External collaborators (FatFS, the CPU-mode trampolines, the
built-in command handlers, the `pmatch` string matcher) are oracle
parameters.
-/

/-- The NUL character terminating C strings. -/
def NUL : Char := Char.ofNat 0

/-- Result codes, by index into the `mos_errors` table in `mos.c`
(indices 0..19 are the FatFS `FRESULT` codes, 20+ are MOS-specific). -/
def FR_OK : Nat := 0

/-- FatFS code 1: "Error accessing SD card" (a medium failure). -/
def FR_DISK_ERR : Nat := 1

/-- FatFS code 4: "Could not find file". -/
def FR_NO_FILE : Nat := 4

/-- FatFS code 5: "Could not find path". -/
def FR_NO_PATH : Nat := 5

/-- FatFS code 9: "Invalid file/directory object". -/
def FR_INVALID_OBJECT : Nat := 9

/-- FatFS code 19: "Invalid parameter". -/
def FR_INVALID_PARAMETER : Nat := 19

/-- MOS code 20: "Invalid command". -/
def MOS_INVALID_COMMAND : Nat := 20

/-- MOS code 21: "Invalid executable". -/
def MOS_INVALID_EXECUTABLE : Nat := 21

/-- MOS code 24: "Load overlaps system area". -/
def MOS_OVERLAPPING_SYSTEM : Nat := 24

/-- Read the character of buffer `buf` at index `i`; past the end of
the list this yields NUL (the buffer is NUL-terminated). -/
def charAt (buf : List Char) (i : Nat) : Char := buf.getD i NUL

/-- Length of the run of characters of `buf` starting at index `i`
that satisfy `p` (the common core of C `strspn`, `strcspn` and
`strlen`). -/
def countWhile (p : Char → Bool) (buf : List Char) (i : Nat) : Nat :=
  ((buf.drop i).takeWhile p).length

/-- C `isspace` on the ASCII characters it accepts. -/
def isspaceChar (c : Char) : Bool :=
  c == ' ' || c == '\t' || c == '\n' || c == '\x0b' || c == '\x0c' || c == '\r'

/-- C `strspn(s1 + i, s2)`: length of the leading run of characters of
the string at `i` that belong to `s2`. -/
def strspn (buf : List Char) (i : Nat) (s2 : List Char) : Nat :=
  countWhile (fun c => s2.contains c) buf i

/-- C `strcspn(s1 + i, s2)`: length of the leading run of characters of
the string at `i` that do not belong to `s2` (the scan also stops at
the NUL terminator). -/
def strcspn (buf : List Char) (i : Nat) (s2 : List Char) : Nat :=
  countWhile (fun c => !(c == NUL) && !(s2.contains c)) buf i

/-- C `strlen(s + i)`. -/
def strlenAt (buf : List Char) (i : Nat) : Nat :=
  countWhile (fun c => !(c == NUL)) buf i

/-- The C string stored at index `i` of the buffer (the characters up
to the first NUL). -/
def cString (buf : List Char) (i : Nat) : List Char :=
  (buf.drop i).takeWhile (fun c => !(c == NUL))

/-- `mos_strtok_r(s1, s2, ptr)` from `mos.c`.  `s1?` is the `s1`
argument (`none` models a NULL pointer, which makes the scan resume
from the stored cursor `ptr`).  Returns the possibly mutated buffer,
the returned token pointer (`none` models returning NULL), and the
new value stored in `*ptr`. -/
def mos_strtok_r (buf : List Char) (s1? : Option Nat) (s2 : List Char)
    (ptr : Nat) : List Char × Option Nat × Nat :=
  let s1 := s1?.getD ptr
  if charAt buf s1 = NUL then
    (buf, none, s1)
  else
    let t := s1 + strspn buf s1 s2
    if charAt buf t = NUL then
      (buf, none, t)
    else
      let e := t + strcspn buf t s2
      if charAt buf e = NUL then
        (buf, some t, e)
      else
        (buf.set e NUL, some t, e + 1)

/-- The backwards scan in `mos_trim`: starting from index `j`, step
back over whitespace but never back past index `s`
(`while (ptr > s && isspace(*ptr)) ptr--`). -/
def trimBackScan (buf : List Char) (s : Nat) : Nat → Nat
  | 0 => 0
  | j + 1 =>
    if s < j + 1 then
      if isspaceChar (charAt buf (j + 1)) then trimBackScan buf s j else j + 1
    else
      j + 1

/-- `mos_trim(s)` from `mos.c`.  The argument and result are pointers
into the buffer (`none` models NULL).  Leading whitespace *and
asterisks* are skipped by advancing the pointer; trailing whitespace
is removed by storing a NUL just after the last non-space character.
Returns the possibly mutated buffer and the result pointer. -/
def mos_trim (buf : List Char) : Option Nat → List Char × Option Nat
  | none => (buf, none)
  | some i =>
    if charAt buf i = NUL then
      (buf, some i)
    else
      let s := i + countWhile (fun c => isspaceChar c || c == '*') buf i
      let n := strlenAt buf s
      if n = 0 then
        (buf.set s NUL, some s)
      else
        let p := trimBackScan buf s (s + n - 1)
        (buf.set (p + 1) NUL, some s)

/-- Hexadecimal digit test (as accepted by C `strtol` with base 16). -/
def isHexDigitChar (c : Char) : Bool :=
  c.isDigit || ('a' ≤ c && c ≤ 'f') || ('A' ≤ c && c ≤ 'F')

/-- Digit test for the two bases `mos_parseNumber` uses. -/
def isDigitBase (base : Nat) (c : Char) : Bool :=
  if base = 16 then isHexDigitChar c else c.isDigit

/-- Numeric value of a digit character. -/
def digitVal (c : Char) : Nat :=
  if c.isDigit then c.toNat - '0'.toNat
  else if 'a' ≤ c && c ≤ 'f' then c.toNat - 'a'.toNat + 10
  else if 'A' ≤ c && c ≤ 'F' then c.toNat - 'A'.toNat + 10
  else 0

/-- Value of a digit string in the given base. -/
def digitsVal (base : Nat) (l : List Char) : Nat :=
  l.foldl (fun acc c => acc * base + digitVal c) 0

/-- C library `strtol(s, &e, base)` (an external collaborator): skips
leading whitespace, accepts an optional sign, for base 16 an optional
`0x`/`0X` prefix, then the longest run of digits.  Returns the parsed
value and the number of characters consumed (`e - s`); when no digits
are found it returns `(0, 0)` (`e` is left equal to `s`). -/
def strtol (s : List Char) (base : Nat) : Int × Nat :=
  let w := (s.takeWhile isspaceChar).length
  let sl : Int × Nat :=
    match s.drop w with
    | '-' :: _ => (-1, 1)
    | '+' :: _ => (1, 1)
    | _ => (1, 0)
  let rest := s.drop (w + sl.2)
  let pre :=
    match rest with
    | '0' :: x :: d :: _ =>
      if (x = 'x' ∨ x = 'X') ∧ isHexDigitChar d ∧ base = 16 then 2 else 0
    | _ => 0
  let digits := (rest.drop pre).takeWhile (isDigitBase base)
  if digits.length = 0 then (0, 0)
  else (sl.1 * (digitsVal base digits : Int), w + sl.2 + pre + digits.length)

/-- `mos_parseNumber(ptr, p_Value)` from `mos.c`, over the shared
tokenizer state.  `cursor` is the incoming value of the global
`mos_strtok_ptr`; `ptr?` is the `ptr` argument handed to `mos_strtok`
(`none` models NULL).  Returns the possibly mutated buffer, the new
cursor value, and `some value` on success / `none` on failure (the C
function returns 0 and leaves `*p_Value` unwritten). -/
def mos_parseNumber (buf : List Char) (cursor : Nat) (ptr? : Option Nat) :
    List Char × Nat × Option Nat :=
  match mos_strtok_r buf ptr? [' '] cursor with
  | (buf1, none, cur1) => (buf1, cur1, none)
  | (buf1, some p, cur1) =>
    let pb := if charAt buf1 p = '&' then (p + 1, 16) else (p, 10)
    let ve := strtol (cString buf1 pb.1) pb.2
    if ve.2 ≠ (cString buf1 pb.1).length then
      (buf1, cur1, none)
    else
      (buf1, cur1, some ((ve.1 % ((2 : Int) ^ 24)).toNat))

/-- `mos_parseString(ptr, p_Value)` from `mos.c`, over the shared
tokenizer state.  Returns the possibly mutated buffer, the new cursor
value, and `some tokenPointer` on success / `none` on failure. -/
def mos_parseString (buf : List Char) (cursor : Nat) (ptr? : Option Nat) :
    List Char × Nat × Option Nat :=
  match mos_strtok_r buf ptr? [' '] cursor with
  | (buf1, none, cur1) => (buf1, cur1, none)
  | (buf1, some p, cur1) => (buf1, cur1, some p)

/-- One entry of the `mosCommands` table: the command name and its
handler function pointer (a non-zero identifier; aliases share the
same identifier, mirroring shared function pointers). -/
structure t_mosCommand where
  name : List Char
  func : Nat
deriving DecidableEq

/-- The `mosCommands` table from `mos.c`, in declaration order (the
source iterates over it in order, so the order is significant), with
`DEBUG` disabled.  Handler identifiers mirror which entries share a
handler function pointer. -/
def mosCommands : List t_mosCommand :=
  [⟨".".toList, 1⟩, ⟨"CAT".toList, 1⟩, ⟨"CD".toList, 2⟩, ⟨"CDIR".toList, 2⟩,
   ⟨"CLS".toList, 3⟩, ⟨"COPY".toList, 4⟩, ⟨"CP".toList, 4⟩,
   ⟨"CREDITS".toList, 5⟩, ⟨"DELETE".toList, 6⟩, ⟨"DIR".toList, 1⟩,
   ⟨"DISC".toList, 7⟩, ⟨"ECHO".toList, 8⟩, ⟨"ERASE".toList, 6⟩,
   ⟨"EXEC".toList, 9⟩, ⟨"HELP".toList, 10⟩, ⟨"JMP".toList, 11⟩,
   ⟨"LOAD".toList, 12⟩, ⟨"LS".toList, 1⟩, ⟨"HOTKEY".toList, 13⟩,
   ⟨"MEM".toList, 14⟩, ⟨"MKDIR".toList, 15⟩, ⟨"MOUNT".toList, 16⟩,
   ⟨"MOVE".toList, 17⟩, ⟨"MV".toList, 17⟩, ⟨"PRINTF".toList, 18⟩,
   ⟨"RENAME".toList, 17⟩, ⟨"RM".toList, 6⟩, ⟨"RUN".toList, 19⟩,
   ⟨"SAVE".toList, 20⟩, ⟨"Set".toList, 21⟩, ⟨"SetEval".toList, 22⟩,
   ⟨"SetMacro".toList, 23⟩, ⟨"Show".toList, 24⟩, ⟨"TIME".toList, 25⟩,
   ⟨"TYPE".toList, 26⟩, ⟨"UNSET".toList, 27⟩, ⟨"VDU".toList, 28⟩]

/-- `mos_getCommand(ptr)` from `mos.c`: return the first table entry
(in declaration order) that the external `pmatch(ptr, name,
MATCH_COMMANDS)` collaborator reports as a match.  `matcher tok name =
true` models `pmatch(tok, name, MATCH_COMMANDS) == 0`. -/
def mos_getCommand (matcher : List Char → List Char → Bool)
    (tok : List Char) : Option t_mosCommand :=
  mosCommands.find? (fun c => matcher tok c.name)

/-- The memory-layout constants from `mos.h` (not part of this sourc
file): the last externally addressable RAM address, the protected
system-area base address, and the two fixed load addresses used by
`mos_exec`. -/
structure MosConfig where
  externLastRAMaddress : Nat
  systemAddress : Nat
  starLoadAddress : Nat
  defaultLoadAddress : Nat

/-- The FatFS collaborator as seen through `f_open`/`f_size`/`f_read`:
per path, the `f_open` result, the file contents, and the `f_read`
result. -/
structure FsOracle where
  openRes : List Char → Nat
  fileData : List Char → List Nat
  readRes : List Char → Nat

/-- Copy `data` into memory starting at `addr` (the effect of
`f_read(&fil, (void*)address, size, &br)`). -/
def memCopy (mem : Nat → Nat) (addr : Nat) (data : List Nat) : Nat → Nat :=
  fun a => if addr ≤ a ∧ a < addr + data.length then data.getD (a - addr) 0 else mem a

/-- The byte count `mos_LOAD` actually loads: the `size` argument
clamped to the file size, with `size = 0` meaning the whole file. -/
def effectiveLoadSize (fSize size : Nat) : Nat :=
  if size ≠ 0 then (if fSize < size then fSize else size) else fSize

/-- `mos_LOAD(filename, address, size)` from `mos.c`: open the file,
clamp `size` to the file size, and either fail with
`MOS_OVERLAPPING_SYSTEM` (before reading) when the target range starts
in external RAM and runs into the protected system area, or read the
bytes to `address`.  Address arithmetic is 24-bit (`UINT24`).  Returns
the result code and the resulting memory. -/
def mos_LOAD (fs : FsOracle) (cfg : MosConfig) (filename : List Char)
    (address size : Nat) (mem : Nat → Nat) : Nat × (Nat → Nat) :=
  let fr := fs.openRes filename
  if fr = FR_OK then
    let data := fs.fileData filename
    let sz := effectiveLoadSize data.length size
    if address ≤ cfg.externLastRAMaddress ∧
        (address + sz) % 2 ^ 24 > cfg.systemAddress then
      (MOS_OVERLAPPING_SYSTEM, mem)
    else
      (fs.readRes filename, memCopy mem address (data.take sz))
  else
    (fr, mem)

/-- `mos_execMode(ptr)` from `mos.c`: check the three signature bytes
`M`, `O`, `S` at offsets `0x40..0x42` of the loaded image and return
the mode byte at offset `0x44`, or `0xFF` when the signature is
absent. -/
def mos_execMode (mem : Nat → Nat) (ptr : Nat) : Nat :=
  if mem (ptr + 0x40) = 77 ∧ mem (ptr + 0x41) = 79 ∧ mem (ptr + 0x42) = 83 then
    mem (ptr + 0x44)
  else
    0xFF

/-- `mos_runBin(addr)` from `mos.c`: dispatch on the execution mode of
the loaded image — `0` calls the Z80 trampoline `exec16`, `1` the ADL
trampoline `exec24` (external collaborators, modelled as oracles taking
the address and the argument-string pointer `mos_strtok_ptr`), anything
else is `MOS_INVALID_EXECUTABLE`. -/
def mos_runBin (ex16 ex24 : Nat → Nat → Nat) (mem : Nat → Nat)
    (addr argPtr : Nat) : Nat :=
  match mos_execMode mem addr with
  | 0 => ex16 addr argPtr
  | 1 => ex24 addr argPtr
  | _ => MOS_INVALID_EXECUTABLE

/-- Events observable during one `mos_exec` invocation: the read of
`cmd->func` through a NULL command pointer, a built-in handler call, a
`mos_LOAD` attempt on a candidate path, and a `mos_runBin` dispatch. -/
inductive MosEvent where
  | derefNullCmd : MosEvent
  | handlerCall : Nat → MosEvent
  | loadAttempt : List Char → MosEvent
  | ranBin : Nat → MosEvent
deriving DecidableEq

/-- The external collaborators of `mos_exec`: the `pmatch` command
matcher, the built-in handlers (by function-pointer identifier, taking
the `mos_strtok_ptr` argument pointer), the FatFS oracle, the two
trampolines and the memory-layout constants. -/
structure ExecEnv where
  matcher : List Char → List Char → Bool
  handlers : Nat → Nat → Nat
  fs : FsOracle
  ex16 : Nat → Nat → Nat
  ex24 : Nat → Nat → Nat
  cfg : MosConfig

/-- The external-program search of `mos_exec` (the `else` branch after
command-table lookup): reject over-long names, then try
`/mos/<name>.bin` at the moslet load address and — only when `in_mos`
— `<name>.bin` (current directory) and `/bin/<name>.bin` at the
default load address; a successful load is dispatched, an
`MOS_OVERLAPPING_SYSTEM` result is returned at once, any other result
falls through to the next candidate; finally `FR_NO_FILE`/`FR_NO_PATH`
is mapped to `MOS_INVALID_COMMAND` and any other code of the last
attempt is returned as is. -/
def execSearch (env : ExecEnv) (tok : List Char) (cur : Nat)
    (in_mos : Bool) (mem : Nat → Nat) (evts : List MosEvent) :
    Nat × List MosEvent :=
  if tok.length > 246 then
    (MOS_INVALID_COMMAND, evts)
  else
    let p1 := "/mos/".toList ++ tok ++ ".bin".toList
    let r1 := mos_LOAD env.fs env.cfg p1 env.cfg.starLoadAddress 0 mem
    let evts1 := evts ++ [MosEvent.loadAttempt p1]
    if r1.1 = FR_OK then
      (mos_runBin env.ex16 env.ex24 r1.2 env.cfg.starLoadAddress cur,
       evts1 ++ [MosEvent.ranBin env.cfg.starLoadAddress])
    else if r1.1 = MOS_OVERLAPPING_SYSTEM then
      (r1.1, evts1)
    else if in_mos then
      let p2 := tok ++ ".bin".toList
      let r2 := mos_LOAD env.fs env.cfg p2 env.cfg.defaultLoadAddress 0 r1.2
      let evts2 := evts1 ++ [MosEvent.loadAttempt p2]
      if r2.1 = FR_OK then
        (mos_runBin env.ex16 env.ex24 r2.2 env.cfg.defaultLoadAddress cur,
         evts2 ++ [MosEvent.ranBin env.cfg.defaultLoadAddress])
      else if r2.1 = MOS_OVERLAPPING_SYSTEM then
        (r2.1, evts2)
      else
        let p3 := "/bin/".toList ++ tok ++ ".bin".toList
        let r3 := mos_LOAD env.fs env.cfg p3 env.cfg.defaultLoadAddress 0 r2.2
        let evts3 := evts2 ++ [MosEvent.loadAttempt p3]
        if r3.1 = FR_OK then
          (mos_runBin env.ex16 env.ex24 r3.2 env.cfg.defaultLoadAddress cur,
           evts3 ++ [MosEvent.ranBin env.cfg.defaultLoadAddress])
        else if r3.1 = MOS_OVERLAPPING_SYSTEM then
          (r3.1, evts3)
        else if r3.1 = FR_NO_FILE ∨ r3.1 = FR_NO_PATH then
          (MOS_INVALID_COMMAND, evts3)
        else
          (r3.1, evts3)
    else if r1.1 = FR_NO_FILE ∨ r1.1 = FR_NO_PATH then
      (MOS_INVALID_COMMAND, evts1)
    else
      (r1.1, evts1)

/-- `mos_exec(buffer, in_mos)` from `mos.c`: trim the line; treat an
empty line, a `#` line or a `| ` line as a no-op success; take the
first token; look it up in the command table (the source reads
`cmd->func` *before* checking `cmd != NULL`, recorded as a
`derefNullCmd` event when the lookup failed); run a matched handler,
otherwise search for an external program.  Returns the result code
and the trace of observable events. -/
def mos_exec (env : ExecEnv) (buf : List Char) (in_mos : Bool)
    (mem : Nat → Nat) : Nat × List MosEvent :=
  match mos_trim buf (some 0) with
  | (_, none) => (0, [])
  | (buf1, some p) =>
    if charAt buf1 p = '#' ∨ charAt buf1 p = NUL ∨
        (charAt buf1 p = '|' ∧ charAt buf1 (p + 1) = ' ') then
      (FR_OK, [])
    else
      match mos_strtok_r buf1 (some p) [' '] 0 with
      | (_, none, _) => (0, [])
      | (buf2, some t, cur) =>
        let tok := cString buf2 t
        match mos_getCommand env.matcher tok with
        | some cmd =>
          if cmd.func ≠ 0 then
            (env.handlers cmd.func cur, [MosEvent.handlerCall cmd.func])
          else
            execSearch env tok cur in_mos mem []
        | none =>
          execSearch env tok cur in_mos mem [MosEvent.derefNullCmd]

/-- The kinds of system variables (`MOS_VAR_STRING`, `MOS_VAR_NUMBER`,
`MOS_VAR_MACRO`, `MOS_VAR_CODE` in the headers; the spec calls them
String, Number, Macro and Computed). -/
inductive VarKind where
  | stringVar : VarKind
  | numberVar : VarKind
  | macroVar : VarKind
  | codeVar : VarKind
deriving DecidableEq

/-- A system-variable entry (`t_mosSystemVariable`): its name and its
kind.  The payload is irrelevant to removal policy and omitted. -/
structure t_mosSystemVariable where
  label : List Char
  vtype : VarKind
deriving DecidableEq

/-- Modelled from the spec: the pattern matcher used for
variable-name lookup lives in `strings.c` / `mos_sysvars.c`, which are
not part of this source file.  Following §4.4, matching is
case-insensitive and `*` is a multi-character wildcard. -/
def matchPat : List Char → List Char → Bool
  | [], [] => true
  | '*' :: ps, [] => matchPat ps []
  | _ :: _, [] => false
  | [], _ :: _ => false
  | '*' :: ps, c :: cs => matchPat ps (c :: cs) || matchPat ('*' :: ps) cs
  | p :: ps, c :: cs => (p.toLower == c.toLower) && matchPat ps cs
  termination_by pat s => (s.length, pat.length)

/-- Modelled from the spec: the `getSystemVariable` /
`removeSystemVariable` store primitives called by `mos_cmdUNSET` live
in `mos_sysvars.c`, which is not part of this source file.  Following
§4.4 the store is a single name-ordered list and the UNSET loop scans
it once from the head, resuming after each match: a matching entry is
unlinked unless its kind is `Computed` (code), which is skipped and
kept. -/
def unsetMatches (pat : List Char) :
    List t_mosSystemVariable → List t_mosSystemVariable
  | [] => []
  | v :: rest =>
    if matchPat pat v.label && !(v.vtype == VarKind.codeVar) then
      unsetMatches pat rest
    else
      v :: unsetMatches pat rest

/-- `mos_cmdUNSET(ptr)` from `mos.c`: parse the pattern token (`none`
models `mos_parseString` failing, giving `FR_INVALID_PARAMETER`),
then repeatedly locate matching variables, removing every match whose
kind is not `MOS_VAR_CODE`.  Returns the result code and the
resulting store. -/
def mos_cmdUNSET (tok? : Option (List Char))
    (store : List t_mosSystemVariable) : Nat × List t_mosSystemVariable :=
  match tok? with
  | none => (FR_INVALID_PARAMETER, store)
  | some tok => (FR_OK, unsetMatches tok store)

/-- The `free > 0` in-use flags of the `mosFileObjects` slot array
(`slots.length` models `MOS_maxOpenFiles`, defined in `mos.h`). -/
abbrev FileSlots := List Bool

/-- `mos_GETFIL(fh)` from `mos.c`: file handles are indexed from 1;
handle 0, a handle beyond `MOS_maxOpenFiles`, or a slot that is not
marked in use yield the null pointer (`none`); otherwise the address
of the slot's `FIL` object (`some` of the slot index). -/
def mos_GETFIL (slots : FileSlots) (fh : Nat) : Option Nat :=
  if 0 < fh ∧ fh ≤ slots.length then
    if slots.getD (fh - 1) false then some (fh - 1) else none
  else
    none

/-- The FatFS per-file operations used by `mos_FREAD` / `mos_FWRITE` /
`mos_FLSEEK` (external collaborators), per slot: `readData slot btr`
gives the `f_read` result code and the bytes it stores into the
caller's buffer, `writeRes slot buffer btw` the `f_write` result code
and byte count, `seekRes slot offset` the `f_lseek` result code. -/
structure FatfsFileOps where
  readData : Nat → Nat → Nat × List Nat
  writeRes : Nat → Nat → Nat → Nat × Nat
  seekRes : Nat → Nat → Nat

/-- `mos_FREAD(fh, buffer, btr)` from `mos.c`: resolve the handle via
`mos_GETFIL`; on a null object return 0 without touching memory;
otherwise `f_read` into the buffer and return the byte count when it
succeeded, 0 otherwise.  Returns the count and the resulting
memory. -/
def mos_FREAD (ops : FatfsFileOps) (slots : FileSlots)
    (fh buffer btr : Nat) (mem : Nat → Nat) : Nat × (Nat → Nat) :=
  match mos_GETFIL slots fh with
  | some i =>
    let rd := ops.readData i btr
    let mem1 := memCopy mem buffer rd.2
    if rd.1 = FR_OK then (rd.2.length, mem1) else (0, mem1)
  | none => (0, mem)

/-- `mos_FWRITE(fh, buffer, btw)` from `mos.c`: resolve the handle; on
a null object return 0; otherwise `f_write` and return the byte count
when it succeeded, 0 otherwise. -/
def mos_FWRITE (ops : FatfsFileOps) (slots : FileSlots)
    (fh buffer btw : Nat) : Nat :=
  match mos_GETFIL slots fh with
  | some i =>
    let wr := ops.writeRes i buffer btw
    if wr.1 = FR_OK then wr.2 else 0
  | none => 0

/-- `mos_FLSEEK(fh, offset)` from `mos.c`: resolve the handle; on a
null object return `FR_INVALID_OBJECT`; otherwise `f_lseek`. -/
def mos_FLSEEK (ops : FatfsFileOps) (slots : FileSlots)
    (fh offset : Nat) : Nat :=
  match mos_GETFIL slots fh with
  | some i => ops.seekRes i offset
  | none => FR_INVALID_OBJECT

/-- Reading past the end of the buffer yields NUL. -/
lemma charAt_of_len_le {buf : List Char} {i : Nat} (h : buf.length ≤ i) :
    charAt buf i = NUL := by
  simp [charAt, List.getD, List.getElem?_eq_none h]

/-- Unfolding rule for `countWhile`, for predicates that reject NUL. -/
lemma countWhile_rec {p : Char → Bool} (hp : p NUL = false)
    (buf : List Char) (i : Nat) :
    countWhile p buf i =
      if p (charAt buf i) then countWhile p buf (i + 1) + 1 else 0 := by
  by_cases h : i < buf.length
  · have hd : buf.drop i = buf[i] :: buf.drop (i + 1) := List.drop_eq_getElem_cons h
    have hc : charAt buf i = buf[i] := by
      simp [charAt, List.getD, List.getElem?_eq_getElem h]
    rw [countWhile, hd, List.takeWhile_cons, hc]
    by_cases hp2 : p buf[i] = true
    · simp [hp2, countWhile]
    · simp [hp2, countWhile]
  · have h2 : buf.length ≤ i := le_of_not_lt h
    have hd : buf.drop i = [] := List.drop_eq_nil_of_le h2
    rw [countWhile, hd, charAt_of_len_le h2, hp]
    simp

/-- The scan of `countWhile` stops at a character violating `p`. -/
lemma countWhile_stop {p : Char → Bool} (hp : p NUL = false)
    (buf : List Char) (i : Nat) :
    p (charAt buf (i + countWhile p buf i)) = false := by
  have key : ∀ n i, buf.length ≤ i + n →
      p (charAt buf (i + countWhile p buf i)) = false := by
    intro n
    induction n with
    | zero =>
      intro i h
      have hc : charAt buf i = NUL := charAt_of_len_le (by omega)
      have : countWhile p buf i = 0 := by
        rw [countWhile_rec hp, hc, hp]
        simp
      rw [this]
      simpa [hc] using hp
    | succ n ih =>
      intro i h
      by_cases hp2 : p (charAt buf i) = true
      · have : countWhile p buf i = countWhile p buf (i + 1) + 1 := by
          rw [countWhile_rec hp, hp2]
          simp
        rw [this, show i + (countWhile p buf (i + 1) + 1) =
          (i + 1) + countWhile p buf (i + 1) by omega]
        exact ih (i + 1) (by omega)
      · have : countWhile p buf i = 0 := by
          rw [countWhile_rec hp]
          simp [hp2]
        rw [this]
        simpa using hp2
  exact key buf.length i (by omega)

/-- Every character inside the run counted by `countWhile` satisfies `p`. -/
lemma countWhile_mem {p : Char → Bool} (hp : p NUL = false)
    (buf : List Char) :
    ∀ j i, j < countWhile p buf i → p (charAt buf (i + j)) = true := by
  intro j
  induction j with
  | zero =>
    intro i h
    by_cases hp2 : p (charAt buf i) = true
    · simpa using hp2
    · rw [countWhile_rec hp] at h
      simp [hp2] at h
  | succ j ih =>
    intro i h
    by_cases hp2 : p (charAt buf i) = true
    · rw [countWhile_rec hp, hp2] at h
      simp at h
      have := ih (i + 1) (by omega)
      rw [show i + (j + 1) = (i + 1) + j by omega]
      exact this
    · rw [countWhile_rec hp] at h
      simp [hp2] at h
  
/-- `countWhile` is determined by the pointwise run description. -/
lemma countWhile_eq_of {p : Char → Bool} (hp : p NUL = false)
    (buf : List Char) :
    ∀ k i, (∀ j, j < k → p (charAt buf (i + j)) = true) →
      p (charAt buf (i + k)) = false → countWhile p buf i = k := by
  intro k
  induction k with
  | zero =>
    intro i _ hk
    rw [countWhile_rec hp]
    simp at hk
    simp [hk]
  | succ k ih =>
    intro i hall hk
    have h0 : p (charAt buf i) = true := by simpa using hall 0 (by omega)
    rw [countWhile_rec hp, h0]
    simp only [if_pos]
    have := ih (i + 1) (fun j hj => by
      have := hall (j + 1) (by omega)
      rwa [show i + (j + 1) = (i + 1) + j by omega] at this)
      (by rwa [show (i + 1) + k = i + (k + 1) by omega])
    omega

/-- Writing at index `e` does not change reads elsewhere. -/
lemma charAt_set_ne {buf : List Char} {e k : Nat} {c : Char} (h : e ≠ k) :
    charAt (buf.set e c) k = charAt buf k := by
  simp [charAt, List.getD, List.getElem?_set_ne h]

/-- Reading back an in-range write. -/
lemma charAt_set_self {buf : List Char} {e : Nat} {c : Char}
    (h : e < buf.length) : charAt (buf.set e c) e = c := by
  simp [charAt, List.getD, List.getElem?_set_self', List.getElem?_eq_getElem h]

/-- Writing NUL where the buffer already reads NUL is a no-op. -/
lemma set_NUL_eq_self {buf : List Char} {e : Nat} (h : charAt buf e = NUL) :
    buf.set e NUL = buf := by
  induction buf generalizing e with
  | nil => simp
  | cons a t ih =>
    cases e with
    | zero =>
      simp [charAt] at h
      simp [h]
    | succ e =>
      simp [charAt, List.getD] at h ih
      simp [List.set_cons_succ]
      exact ih h

/-- Reading back a write of NUL, in or out of range. -/
lemma charAt_set_NUL {buf : List Char} (e : Nat) :
    charAt (buf.set e NUL) e = NUL := by
  by_cases h : e < buf.length
  · exact charAt_set_self h
  · rw [List.set_eq_of_length_le (by omega)]
    exact charAt_of_len_le (by omega)

/-- The whitespace-or-asterisk predicate used by `mos_trim`. -/
def wsStar (c : Char) : Bool := isspaceChar c || c == '*'

/-- `trimBackScan` never moves below `s` nor above its start. -/
lemma trimBackScan_bounds (buf : List Char) (s : Nat) :
    ∀ j, s ≤ j → s ≤ trimBackScan buf s j ∧ trimBackScan buf s j ≤ j := by
  intro j
  induction j with
  | zero =>
    intro h
    simp only [trimBackScan]
    omega
  | succ j ih =>
    intro h
    rw [trimBackScan]
    by_cases h1 : s < j + 1
    · by_cases h2 : isspaceChar (charAt buf (j + 1)) = true
      · rw [if_pos h1, if_pos h2]
        have := ih (by omega)
        omega
      · rw [if_pos h1, if_neg h2]
        omega
    · rw [if_neg h1]
      omega

/-- `trimBackScan` stops at `s` or at a non-whitespace character. -/
lemma trimBackScan_stop (buf : List Char) (s : Nat) :
    ∀ j, s ≤ j → trimBackScan buf s j = s ∨
      isspaceChar (charAt buf (trimBackScan buf s j)) = false := by
  intro j
  induction j with
  | zero =>
    intro h
    simp only [trimBackScan]
    left
    omega
  | succ j ih =>
    intro h
    rw [trimBackScan]
    by_cases h1 : s < j + 1
    · by_cases h2 : isspaceChar (charAt buf (j + 1)) = true
      · rw [if_pos h1, if_pos h2]
        exact ih (by omega)
      · rw [if_pos h1, if_neg h2]
        right
        simpa using h2
    · rw [if_neg h1]
      left
      omega

/-- Shape of `mos_trim` on a pointer to a non-NUL character. -/
lemma mos_trim_some (buf : List Char) (i : Nat) (h0 : ¬ charAt buf i = NUL) :
    mos_trim buf (some i) =
      if strlenAt buf (i + countWhile wsStar buf i) = 0 then
        (buf.set (i + countWhile wsStar buf i) NUL,
         some (i + countWhile wsStar buf i))
      else
        (buf.set
          (trimBackScan buf (i + countWhile wsStar buf i)
            (i + countWhile wsStar buf i +
              strlenAt buf (i + countWhile wsStar buf i) - 1) + 1) NUL,
         some (i + countWhile wsStar buf i)) := by
  simp only [mos_trim, h0, if_neg, wsStar]
  rfl

/-- `trimBackScan` is already at a fixed point when the character at
its start is not whitespace (or the start is at `s`). -/
lemma trimBackScan_fix (buf : List Char) (s : Nat) (j : Nat)
    (h : s < j → isspaceChar (charAt buf j) = false) :
    trimBackScan buf s j = j := by
  cases j with
  | zero => rfl
  | succ j =>
    rw [trimBackScan]
    by_cases h1 : s < j + 1
    · rw [if_pos h1, if_neg (by simp [h h1])]
    · rw [if_neg h1]

/-- A positive `strlen` means the first character is not NUL. -/
lemma strlenAt_pos_charAt {buf : List Char} {i : Nat}
    (h : ¬ strlenAt buf i = 0) : ¬ charAt buf i = NUL := by
  intro hc
  apply h
  unfold strlenAt
  rw [countWhile_rec (by decide), hc]
  simp

/-- Characters strictly inside the `strlen` range are not NUL. -/
lemma strlenAt_mem {buf : List Char} {j i : Nat} (h : j < strlenAt buf i) :
    ¬ charAt buf (i + j) = NUL := by
  unfold strlenAt at h
  have := countWhile_mem (p := fun c => !(c == NUL)) (by decide) buf j i h
  simpa using this

/-- The working branch of trim idempotence: pointer at a non-NUL
character and a non-empty remainder after skipping whitespace and
asterisks. -/
lemma mos_trim_idem_main (buf : List Char) (i : Nat)
    (h0 : ¬ charAt buf i = NUL)
    (hzero : ¬ strlenAt buf (i + countWhile wsStar buf i) = 0) :
    mos_trim (mos_trim buf (some i)).1 (mos_trim buf (some i)).2 =
      mos_trim buf (some i) := by
  have hstop0 : wsStar (charAt buf (i + countWhile wsStar buf i)) = false :=
    countWhile_stop (by decide) buf i
  rw [mos_trim_some buf i h0]
  set s := i + countWhile wsStar buf i with hs
  set n := strlenAt buf s with hn
  rw [if_neg hzero]
  set p := trimBackScan buf s (s + n - 1) with hp
  set buf2 := buf.set (p + 1) NUL with hbuf2
  have hn1 : 1 ≤ n := Nat.one_le_iff_ne_zero.mpr hzero
  have hpb := trimBackScan_bounds buf s (s + n - 1) (by omega)
  have hps : s ≤ p := hpb.1
  have hpe : p ≤ s + n - 1 := hpb.2
  have hcsnN : ¬ charAt buf s = NUL := strlenAt_pos_charAt hzero
  have h2s : charAt buf2 s = charAt buf s := charAt_set_ne (by omega)
  have h2snN : ¬ charAt buf2 s = NUL := by
    rw [h2s]
    exact hcsnN
  rw [mos_trim_some buf2 s h2snN]
  have hcw2 : countWhile wsStar buf2 s = 0 := by
    rw [countWhile_rec (by decide) buf2 s, h2s, hstop0]
    simp
  have hn2 : strlenAt buf2 s = p + 1 - s := by
    unfold strlenAt
    apply countWhile_eq_of (by decide)
    · intro j hj
      have hne : ¬ (p + 1 = s + j) := by omega
      rw [hbuf2, charAt_set_ne hne]
      have hmem : ¬ charAt buf (s + j) = NUL := strlenAt_mem (by omega)
      simpa using hmem
    · have harg : s + (p + 1 - s) = p + 1 := by omega
      rw [harg, hbuf2, charAt_set_NUL]
      simp
  rw [hcw2]
  simp only [Nat.add_zero]
  rw [hn2, if_neg (by omega)]
  have harg2 : s + (p + 1 - s) - 1 = p := by omega
  rw [harg2]
  have hscan2 : trimBackScan buf2 s p = p := by
    apply trimBackScan_fix
    intro hsp
    rw [hbuf2, charAt_set_ne (show ¬ p + 1 = p by omega)]
    rcases trimBackScan_stop buf s (s + n - 1) (by omega) with h | h
    · omega
    · exact h
  rw [hscan2, hbuf2, List.set_set]

/-- `mos_trim` is idempotent: applying it to its own output buffer
and pointer changes nothing (helper for the C7 claim). -/
lemma mos_trim_idem (buf : List Char) (ptr : Option Nat) :
    mos_trim (mos_trim buf ptr).1 (mos_trim buf ptr).2 = mos_trim buf ptr := by
  cases ptr with
  | none => rfl
  | some i =>
    by_cases h0 : charAt buf i = NUL
    · simp [mos_trim, h0]
    · by_cases hzero : strlenAt buf (i + countWhile wsStar buf i) = 0
      · rw [mos_trim_some buf i h0]
        rw [if_pos hzero]
        have hA : charAt (buf.set (i + countWhile wsStar buf i) NUL)
            (i + countWhile wsStar buf i) = NUL :=
          charAt_set_NUL _
        simp [mos_trim, hA]
      · exact mos_trim_idem_main buf i h0 hzero

/-- Explicit branch form of `mos_strtok_r`. -/
lemma mos_strtok_r_eq (buf : List Char) (ptr? : Option Nat)
    (s2 : List Char) (cur : Nat) :
    mos_strtok_r buf ptr? s2 cur =
      (if charAt buf (ptr?.getD cur) = NUL then
        (buf, none, ptr?.getD cur)
      else if charAt buf (ptr?.getD cur + strspn buf (ptr?.getD cur) s2)
          = NUL then
        (buf, none, ptr?.getD cur + strspn buf (ptr?.getD cur) s2)
      else if charAt buf (ptr?.getD cur + strspn buf (ptr?.getD cur) s2 +
          strcspn buf (ptr?.getD cur + strspn buf (ptr?.getD cur) s2) s2)
          = NUL then
        (buf, some (ptr?.getD cur + strspn buf (ptr?.getD cur) s2),
         ptr?.getD cur + strspn buf (ptr?.getD cur) s2 +
           strcspn buf (ptr?.getD cur + strspn buf (ptr?.getD cur) s2) s2)
      else
        (buf.set (ptr?.getD cur + strspn buf (ptr?.getD cur) s2 +
            strcspn buf (ptr?.getD cur + strspn buf (ptr?.getD cur) s2) s2)
            NUL,
         some (ptr?.getD cur + strspn buf (ptr?.getD cur) s2),
         ptr?.getD cur + strspn buf (ptr?.getD cur) s2 +
           strcspn buf (ptr?.getD cur + strspn buf (ptr?.getD cur) s2) s2
           + 1)) := rfl

/-- On the no-token branches, `mos_strtok_r` leaves the buffer alone
and parks the cursor on the NUL terminator just past the leading
delimiter run. -/
lemma mos_strtok_r_none {buf : List Char} {ptr? : Option Nat}
    {s2 : List Char} {cur : Nat} (hd : s2.contains NUL = false)
    (h : (mos_strtok_r buf ptr? s2 cur).2.1 = none) :
    mos_strtok_r buf ptr? s2 cur =
      (buf, none, ptr?.getD cur + strspn buf (ptr?.getD cur) s2) ∧
    charAt buf (ptr?.getD cur + strspn buf (ptr?.getD cur) s2) = NUL := by
  by_cases h1 : charAt buf (ptr?.getD cur) = NUL
  · have hspn : strspn buf (ptr?.getD cur) s2 = 0 := by
      unfold strspn
      rw [countWhile_rec (by simpa using hd), h1, hd]
      simp
    rw [mos_strtok_r_eq, if_pos h1, hspn]
    exact ⟨rfl, by simpa using h1⟩
  · by_cases h2 : charAt buf (ptr?.getD cur + strspn buf (ptr?.getD cur) s2) = NUL
    · rw [mos_strtok_r_eq, if_neg h1, if_pos h2]
      exact ⟨rfl, h2⟩
    · exfalso
      rw [mos_strtok_r_eq, if_neg h1, if_neg h2] at h
      by_cases h3 : charAt buf
          (ptr?.getD cur + strspn buf (ptr?.getD cur) s2 +
            strcspn buf (ptr?.getD cur + strspn buf (ptr?.getD cur) s2) s2) = NUL
      · rw [if_pos h3] at h
        simp at h
      · rw [if_neg h3] at h
        simp at h

/-- When `mos_strtok_r` returns a token, the token starts just past the
leading delimiter run, every skipped character is a delimiter, the
token body is delimiter-free and NUL-free, and the call either leaves
the buffer untouched (token already NUL-terminated) or overwrites the
first trailing delimiter with NUL and parks the cursor past it. -/
lemma mos_strtok_r_some {buf : List Char} {st : Nat} {s2 : List Char}
    {cur : Nat} {t : Nat} (hd : s2.contains NUL = false)
    (h : (mos_strtok_r buf (some st) s2 cur).2.1 = some t) :
    t = st + strspn buf st s2 ∧
    (∀ j, j < strspn buf st s2 → s2.contains (charAt buf (st + j)) = true) ∧
    s2.contains (charAt buf t) = false ∧ ¬ charAt buf t = NUL ∧
    (∀ j, j < strcspn buf t s2 →
      ¬ charAt buf (t + j) = NUL ∧ s2.contains (charAt buf (t + j)) = false) ∧
    (charAt buf (t + strcspn buf t s2) = NUL →
      mos_strtok_r buf (some st) s2 cur = (buf, some t, t + strcspn buf t s2)) ∧
    (¬ charAt buf (t + strcspn buf t s2) = NUL →
      s2.contains (charAt buf (t + strcspn buf t s2)) = true ∧
      mos_strtok_r buf (some st) s2 cur =
        (buf.set (t + strcspn buf t s2) NUL, some t,
         t + strcspn buf t s2 + 1)) := by
  have hpd : (fun c => s2.contains c) NUL = false := by simpa using hd
  have hpc : (fun c => !(c == NUL) && !(s2.contains c)) NUL = false := by simp
  rw [mos_strtok_r_eq] at h
  simp only [Option.getD_some] at h
  by_cases h1 : charAt buf st = NUL
  · rw [if_pos h1] at h
    simp at h
  · rw [if_neg h1] at h
    by_cases h2 : charAt buf (st + strspn buf st s2) = NUL
    · rw [if_pos h2] at h
      simp at h
    · rw [if_neg h2] at h
      have ht : t = st + strspn buf st s2 := by
        by_cases h3 : charAt buf
            (st + strspn buf st s2 +
              strcspn buf (st + strspn buf st s2) s2) = NUL
        · rw [if_pos h3] at h
          simp at h
          omega
        · rw [if_neg h3] at h
          simp at h
          omega
      subst ht
      refine ⟨rfl, ?_, ?_, h2, ?_, ?_, ?_⟩
      · intro j hj
        exact countWhile_mem hpd buf j st hj
      · exact countWhile_stop hpd buf st
      · intro j hj
        have := countWhile_mem hpc buf j (st + strspn buf st s2) hj
        simp only [Bool.and_eq_true, Bool.not_eq_true', beq_eq_false_iff_ne,
          ne_eq] at this
        refine ⟨this.1, by simpa using this.2⟩
      · intro h3
        rw [mos_strtok_r_eq]
        simp only [Option.getD_some]
        rw [if_neg h1, if_neg h2, if_pos h3]
      · intro h3
        constructor
        · have := countWhile_stop
            (p := fun c => !(c == NUL) && !(s2.contains c)) hpc buf
            (st + strspn buf st s2)
          rw [show countWhile (fun c => !(c == NUL) && !(s2.contains c)) buf
              (st + strspn buf st s2) =
              strcspn buf (st + strspn buf st s2) s2 from rfl] at this
          simp only [Bool.and_eq_false_iff, Bool.not_eq_false',
            beq_iff_eq, Bool.not_eq_false] at this
          rcases this with h4 | h4
          · exact absurd h4 h3
          · exact h4
        · rw [mos_strtok_r_eq]
          simp only [Option.getD_some]
          rw [if_neg h1, if_neg h2, if_neg h3]

/-- C7: `mos_trim` is idempotent — applying it to its own output
(buffer and pointer) returns that output unchanged, for every buffer
and every pointer including NULL — and concretely, leading asterisks
are consumed as whitespace while a trailing asterisk is preserved:
trimming `"  *abc* "` yields the string `"abc*"`. -/
theorem C7_trim_idempotent :
    (∀ (buf : List Char) (ptr : Option Nat),
      mos_trim (mos_trim buf ptr).1 (mos_trim buf ptr).2 = mos_trim buf ptr) ∧
    mos_trim "  *abc* ".toList (some 0) =
      ("  *abc*".toList ++ [NUL], some 3) ∧
    cString ("  *abc*".toList ++ [NUL]) 3 = "abc*".toList :=
  ⟨mos_trim_idem, by decide, by decide⟩

/-- C8: tokenizing the buffer `"  a  b "` with delimiter `" "` yields
the token `"a"`, then the token `"b"`, then no token; and in general a
produced token starts after the leading delimiter run (all skipped
characters are delimiters, the first token character is not), the
token body runs to the first trailing delimiter-or-terminator, and
when that stop is a delimiter it is overwritten with NUL in place and
the resume cursor is positioned just past it. -/
theorem C8_strtok_behaviour :
    (∀ (buf : List Char) (st : Nat) (s2 : List Char) (cur : Nat) (t : Nat),
      s2.contains NUL = false →
      (mos_strtok_r buf (some st) s2 cur).2.1 = some t →
      t = st + strspn buf st s2 ∧
      (∀ j, j < strspn buf st s2 →
        s2.contains (charAt buf (st + j)) = true) ∧
      s2.contains (charAt buf t) = false ∧ ¬ charAt buf t = NUL ∧
      (∀ j, j < strcspn buf t s2 →
        ¬ charAt buf (t + j) = NUL ∧
        s2.contains (charAt buf (t + j)) = false) ∧
      (charAt buf (t + strcspn buf t s2) = NUL →
        mos_strtok_r buf (some st) s2 cur =
          (buf, some t, t + strcspn buf t s2)) ∧
      (¬ charAt buf (t + strcspn buf t s2) = NUL →
        s2.contains (charAt buf (t + strcspn buf t s2)) = true ∧
        mos_strtok_r buf (some st) s2 cur =
          (buf.set (t + strcspn buf t s2) NUL, some t,
           t + strcspn buf t s2 + 1))) ∧
    mos_strtok_r "  a  b ".toList (some 0) [' '] 0 =
      ("  a".toList ++ [NUL] ++ " b ".toList, some 2, 4) ∧
    cString ("  a".toList ++ [NUL] ++ " b ".toList) 2 = "a".toList ∧
    mos_strtok_r ("  a".toList ++ [NUL] ++ " b ".toList) none [' '] 4 =
      ("  a".toList ++ [NUL] ++ " b".toList ++ [NUL], some 5, 7) ∧
    cString ("  a".toList ++ [NUL] ++ " b".toList ++ [NUL]) 5 = "b".toList ∧
    mos_strtok_r ("  a".toList ++ [NUL] ++ " b".toList ++ [NUL]) none [' '] 7 =
      ("  a".toList ++ [NUL] ++ " b".toList ++ [NUL], none, 7) :=
  ⟨fun _ _ _ _ _ hd h => mos_strtok_r_some hd h,
   by decide, by decide, by decide, by decide, by decide⟩

/-- Closed instance of the general clause of `C8_strtok_behaviour`:
the first call on `"  a  b "` produces the token at index 2 after
skipping the two leading delimiters. -/
theorem C8_strtok_behaviour_witness :
    (([' '] : List Char).contains NUL = false) ∧
    ((mos_strtok_r "  a  b ".toList (some 0) [' '] 0).2.1 = some 2) ∧
    2 = 0 + strspn "  a  b ".toList 0 [' '] :=
  ⟨by decide, by decide,
   (C8_strtok_behaviour.1 "  a  b ".toList 0 [' '] 0 2
     (by decide) (by decide)).1⟩

/-- C5 counterexample: `mos_parseNumber` on the buffer `"12x"` (cursor
and argument pointer at index 0) fails because of the trailing `x`,
yet the shared tokenizer cursor has moved from 0 to 3 — it is not left
unchanged on failure as the claim states. -/
theorem C5_cursor_counterexample :
    mos_parseNumber "12x".toList 0 (some 0) = ("12x".toList, 3, none) ∧
    ¬ (3 = 0) :=
  ⟨by decide, by decide⟩

/-- C5 (amended): on failure the parsers return the failure indicator,
but the shared cursor is not preserved in general.  When no token is
found (`mos_parseString`'s only failure, and `mos_parseNumber`'s first
failure), the buffer is unmutated and the cursor is advanced exactly
past the leading delimiters of the remaining input, onto its NUL
terminator; when `mos_parseNumber` fails on a trailing non-numeric
character the token has already been consumed, and buffer and cursor
are exactly as the successful tokenization left them (cursor past the
token). -/
theorem C5_parse_failure_cursor :
    (∀ (buf : List Char) (cur : Nat) (ptr? : Option Nat),
      (mos_parseString buf cur ptr?).2.2 = none →
      mos_parseString buf cur ptr? =
        (buf, ptr?.getD cur + strspn buf (ptr?.getD cur) [' '], none) ∧
      charAt buf (ptr?.getD cur + strspn buf (ptr?.getD cur) [' ']) = NUL) ∧
    (∀ (buf : List Char) (cur : Nat) (ptr? : Option Nat),
      (mos_strtok_r buf ptr? [' '] cur).2.1 = none →
      mos_parseNumber buf cur ptr? =
        (buf, ptr?.getD cur + strspn buf (ptr?.getD cur) [' '], none) ∧
      charAt buf (ptr?.getD cur + strspn buf (ptr?.getD cur) [' ']) = NUL) ∧
    (∀ (buf : List Char) (cur : Nat) (ptr? : Option Nat) (t : Nat),
      (mos_strtok_r buf ptr? [' '] cur).2.1 = some t →
      (mos_parseNumber buf cur ptr?).2.2 = none →
      mos_parseNumber buf cur ptr? =
        ((mos_strtok_r buf ptr? [' '] cur).1,
         (mos_strtok_r buf ptr? [' '] cur).2.2, none)) := by
  refine ⟨?_, ?_, ?_⟩
  · intro buf cur ptr? h
    have hfail : (mos_strtok_r buf ptr? [' '] cur).2.1 = none := by
      unfold mos_parseString at h
      rcases hk : mos_strtok_r buf ptr? [' '] cur with ⟨b1, tk, c1⟩
      rw [hk] at h
      cases tk with
      | none => rfl
      | some p =>
        simp at h
    obtain ⟨heq, hnul⟩ := mos_strtok_r_none (by decide) hfail
    constructor
    · unfold mos_parseString
      rw [heq]
    · exact hnul
  · intro buf cur ptr? hfail
    obtain ⟨heq, hnul⟩ := mos_strtok_r_none (by decide) hfail
    constructor
    · unfold mos_parseNumber
      rw [heq]
    · exact hnul
  · intro buf cur ptr? t hsome hfail
    rcases hk : mos_strtok_r buf ptr? [' '] cur with ⟨b1, tk, c1⟩
    rw [hk] at hsome
    cases tk with
    | none => simp at hsome
    | some p =>
      have hred : mos_parseNumber buf cur ptr? =
          (if (strtol (cString b1
                (if charAt b1 p = '&' then (p + 1, 16) else (p, 10)).1)
                (if charAt b1 p = '&' then (p + 1, 16) else (p, 10)).2).2 ≠
              (cString b1
                (if charAt b1 p = '&' then (p + 1, 16) else (p, 10)).1).length
            then
            (b1, c1, none)
          else
            (b1, c1, some (((strtol (cString b1
                (if charAt b1 p = '&' then (p + 1, 16) else (p, 10)).1)
                (if charAt b1 p = '&' then (p + 1, 16) else (p, 10)).2).1 %
                2 ^ 24).toNat))) := by
        unfold mos_parseNumber
        rw [hk]
      rw [hred]
      by_cases hc : (strtol (cString b1
          (if charAt b1 p = '&' then (p + 1, 16) else (p, 10)).1)
          (if charAt b1 p = '&' then (p + 1, 16) else (p, 10)).2).2 ≠
          (cString b1
            (if charAt b1 p = '&' then (p + 1, 16) else (p, 10)).1).length
      · rw [if_pos hc]
      · rw [hred, if_neg hc] at hfail
        simp at hfail

/-- Closed instance of `C5_parse_failure_cursor`: `mos_parseString` on
an all-delimiter buffer fails and parks the cursor on the terminator
at index 3. -/
theorem C5_parse_failure_cursor_witness :
    ((mos_parseString "   ".toList 0 (some 0)).2.2 = none) ∧
    mos_parseString "   ".toList 0 (some 0) = ("   ".toList, 3, none) :=
  ⟨by decide, by
    have := (C5_parse_failure_cursor.1 "   ".toList 0 (some 0) (by decide)).1
    simpa using this⟩

/-- C2: when the file opens successfully and the target address lies
within the externally addressable RAM range while target address plus
the effective load length extends past the protected system address,
`mos_LOAD` returns `MOS_OVERLAPPING_SYSTEM` and leaves memory
untouched; moreover the outcome does not depend on the file's contents
or the read result (the guard precedes the read), only on the file's
length. -/
theorem C2_load_overlap_guard (fs : FsOracle) (cfg : MosConfig)
    (filename : List Char) (address size : Nat) (mem : Nat → Nat)
    (hopen : fs.openRes filename = FR_OK)
    (hlow : address ≤ cfg.externLastRAMaddress)
    (hhigh : (address + effectiveLoadSize (fs.fileData filename).length size)
      % 2 ^ 24 > cfg.systemAddress) :
    mos_LOAD fs cfg filename address size mem = (MOS_OVERLAPPING_SYSTEM, mem) ∧
    (∀ fs2 : FsOracle, fs2.openRes filename = FR_OK →
      (fs2.fileData filename).length = (fs.fileData filename).length →
      mos_LOAD fs2 cfg filename address size mem =
        (MOS_OVERLAPPING_SYSTEM, mem)) := by
  constructor
  · unfold mos_LOAD
    rw [if_pos hopen, if_pos ⟨hlow, hhigh⟩]
  · intro fs2 hopen2 hlen
    unfold mos_LOAD
    rw [if_pos hopen2, if_pos ⟨hlow, by rw [hlen]; exact hhigh⟩]

/-- Closed instance of `C2_load_overlap_guard`: a 60-byte load at
address 10 with RAM bound 100 and system base 50 is refused with the
memory unchanged. -/
theorem C2_load_overlap_guard_witness :
    ((10 : Nat) ≤ 100 ∧
      (10 + effectiveLoadSize (List.replicate 70 7).length 60) % 2 ^ 24 > 50) ∧
    mos_LOAD ⟨fun _ => FR_OK, fun _ => List.replicate 70 7, fun _ => FR_OK⟩
        ⟨100, 50, 0, 0⟩ "X".toList 10 60 (fun _ => 0) =
      (MOS_OVERLAPPING_SYSTEM, fun _ => 0) :=
  ⟨⟨by decide, by decide⟩,
   (C2_load_overlap_guard
     ⟨fun _ => FR_OK, fun _ => List.replicate 70 7, fun _ => FR_OK⟩
     ⟨100, 50, 0, 0⟩ "X".toList 10 60 (fun _ => 0)
     rfl (by decide) (by decide)).1⟩

/-- C4: for a loaded image, a missing `MOS` signature at offsets
`0x40..0x42` makes `mos_runBin` return `MOS_INVALID_EXECUTABLE`; with
the signature present, mode byte 0 dispatches to the Z80 trampoline
`exec16`, mode byte 1 to the ADL trampoline `exec24`, and any other
mode byte returns `MOS_INVALID_EXECUTABLE`. -/
theorem C4_runBin_dispatch (ex16 ex24 : Nat → Nat → Nat) (mem : Nat → Nat)
    (addr argPtr : Nat) :
    (¬ (mem (addr + 0x40) = 77 ∧ mem (addr + 0x41) = 79 ∧
        mem (addr + 0x42) = 83) →
      mos_runBin ex16 ex24 mem addr argPtr = MOS_INVALID_EXECUTABLE) ∧
    ((mem (addr + 0x40) = 77 ∧ mem (addr + 0x41) = 79 ∧
        mem (addr + 0x42) = 83) →
      (mem (addr + 0x44) = 0 →
        mos_runBin ex16 ex24 mem addr argPtr = ex16 addr argPtr) ∧
      (mem (addr + 0x44) = 1 →
        mos_runBin ex16 ex24 mem addr argPtr = ex24 addr argPtr) ∧
      (¬ mem (addr + 0x44) = 0 → ¬ mem (addr + 0x44) = 1 →
        mos_runBin ex16 ex24 mem addr argPtr = MOS_INVALID_EXECUTABLE)) := by
  constructor
  · intro h
    unfold mos_runBin mos_execMode
    rw [if_neg h]
  · intro h
    refine ⟨?_, ?_, ?_⟩
    · intro h0
      unfold mos_runBin mos_execMode
      rw [if_pos h, h0]
    · intro h1
      unfold mos_runBin mos_execMode
      rw [if_pos h, h1]
    · intro h0 h1
      unfold mos_runBin mos_execMode
      rw [if_pos h]
      rcases hm : mem (addr + 0x44) with _ | m
      · exact absurd hm h0
      · rcases m with _ | m
        · exact absurd hm h1
        · rfl

/-- Closed instance of `C4_runBin_dispatch`: an image with the `MOS`
signature and mode byte 1 dispatches to the ADL trampoline. -/
theorem C4_runBin_dispatch_witness :
    (((fun a => if a = 64 then 77 else if a = 65 then 79 else
        if a = 66 then 83 else if a = 68 then 1 else 0) : Nat → Nat) 64 = 77 ∧
     ((fun a => if a = 64 then 77 else if a = 65 then 79 else
        if a = 66 then 83 else if a = 68 then 1 else 0) : Nat → Nat) 65 = 79 ∧
     ((fun a => if a = 64 then 77 else if a = 65 then 79 else
        if a = 66 then 83 else if a = 68 then 1 else 0) : Nat → Nat) 66 = 83) ∧
    mos_runBin (fun _ _ => 1000) (fun _ _ => 2000)
      (fun a => if a = 64 then 77 else if a = 65 then 79 else
        if a = 66 then 83 else if a = 68 then 1 else 0) 0 9 = 2000 :=
  ⟨⟨by decide, by decide, by decide⟩,
   ((C4_runBin_dispatch (fun _ _ => 1000) (fun _ _ => 2000)
      (fun a => if a = 64 then 77 else if a = 65 then 79 else
        if a = 66 then 83 else if a = 68 then 1 else 0) 0 9).2
     ⟨by decide, by decide, by decide⟩).2.1 (by decide)⟩

/-- C10: for a file handle that is 0, beyond `MOS_maxOpenFiles`, or
whose slot is not marked in use, `mos_GETFIL` returns the null
pointer, `mos_FREAD` and `mos_FWRITE` transfer 0 bytes with the
memory untouched, and `mos_FLSEEK` returns `FR_INVALID_OBJECT`. -/
theorem C10_invalid_handle (ops : FatfsFileOps) (slots : FileSlots)
    (fh buffer btr btw offset : Nat) (mem : Nat → Nat)
    (h : fh = 0 ∨ slots.length < fh ∨ slots.getD (fh - 1) false = false) :
    mos_GETFIL slots fh = none ∧
    mos_FREAD ops slots fh buffer btr mem = (0, mem) ∧
    mos_FWRITE ops slots fh buffer btw = 0 ∧
    mos_FLSEEK ops slots fh offset = FR_INVALID_OBJECT := by
  have hg : mos_GETFIL slots fh = none := by
    unfold mos_GETFIL
    rcases h with h | h | h
    · rw [if_neg (by omega)]
    · rw [if_neg (by omega)]
    · by_cases hb : 0 < fh ∧ fh ≤ slots.length
      · rw [if_pos hb, if_neg (by rw [h]; exact Bool.false_ne_true)]
      · rw [if_neg hb]
  refine ⟨hg, ?_, ?_, ?_⟩
  · unfold mos_FREAD
    rw [hg]
  · unfold mos_FWRITE
    rw [hg]
  · unfold mos_FLSEEK
    rw [hg]

/-- Closed instance of `C10_invalid_handle`: handle 1 over a slot
array whose first slot is free is rejected by all four functions. -/
theorem C10_invalid_handle_witness :
    (([false, true] : FileSlots).getD 0 false = false) ∧
    mos_GETFIL [false, true] 1 = none ∧
    mos_FREAD ⟨fun _ _ => (0, []), fun _ _ _ => (0, 0), fun _ _ => 0⟩
      [false, true] 1 5 9 (fun _ => 3) = (0, fun _ => 3) ∧
    mos_FLSEEK ⟨fun _ _ => (0, []), fun _ _ _ => (0, 0), fun _ _ => 0⟩
      [false, true] 1 7 = FR_INVALID_OBJECT :=
  ⟨by decide,
   (C10_invalid_handle ⟨fun _ _ => (0, []), fun _ _ _ => (0, 0), fun _ _ => 0⟩
     [false, true] 1 5 9 9 7 (fun _ => 3) (Or.inr (Or.inr (by decide)))).1,
   (C10_invalid_handle ⟨fun _ _ => (0, []), fun _ _ _ => (0, 0), fun _ _ => 0⟩
     [false, true] 1 5 9 9 7 (fun _ => 3) (Or.inr (Or.inr (by decide)))).2.1,
   (C10_invalid_handle ⟨fun _ _ => (0, []), fun _ _ _ => (0, 0), fun _ _ => 0⟩
     [false, true] 1 5 9 9 7 (fun _ => 3) (Or.inr (Or.inr (by decide)))).2.2.2⟩

/-- `unsetMatches` is a single filter pass: an entry survives exactly
when it does not match the pattern or is a code (computed) variable. -/
lemma unsetMatches_eq_filter (pat : List Char)
    (store : List t_mosSystemVariable) :
    unsetMatches pat store =
      store.filter
        (fun v => !(matchPat pat v.label) || v.vtype == VarKind.codeVar) := by
  induction store with
  | nil => rfl
  | cons v rest ih =>
    rw [show unsetMatches pat (v :: rest) =
      (if matchPat pat v.label && !(v.vtype == VarKind.codeVar) then
        unsetMatches pat rest
      else v :: unsetMatches pat rest) from rfl, ih]
    by_cases hm : matchPat pat v.label = true
    · by_cases hc : v.vtype = VarKind.codeVar
      · have hcb : (v.vtype == VarKind.codeVar) = true := by simp [hc]
        simp [List.filter, hm, hcb]
      · have hcb : (v.vtype == VarKind.codeVar) = false := by simp [hc]
        simp [List.filter, hm, hcb]
    · have hmb : matchPat pat v.label = false := by simpa using hm
      simp [List.filter, hmb]

/-- C6: a wildcard or exact-name UNSET never removes a `Computed`
(code) variable — every code entry of the store survives — while
every matching entry of an owning kind (string, number, macro) is
removed; non-matching entries are untouched (the result is the
evident filter of the store). -/
theorem C6_unset_keeps_computed (pat : List Char)
    (store : List t_mosSystemVariable) :
    (mos_cmdUNSET (some pat) store).1 = FR_OK ∧
    (mos_cmdUNSET (some pat) store).2 =
      store.filter
        (fun v => !(matchPat pat v.label) || v.vtype == VarKind.codeVar) ∧
    (∀ v ∈ store, v.vtype = VarKind.codeVar →
      v ∈ (mos_cmdUNSET (some pat) store).2) ∧
    (∀ v ∈ store, matchPat pat v.label = true →
      ¬ v.vtype = VarKind.codeVar →
      v ∉ (mos_cmdUNSET (some pat) store).2) := by
  have hfil : (mos_cmdUNSET (some pat) store).2 =
      store.filter
        (fun v => !(matchPat pat v.label) || v.vtype == VarKind.codeVar) :=
    unsetMatches_eq_filter pat store
  refine ⟨rfl, hfil, ?_, ?_⟩
  · intro v hv hc
    rw [hfil, List.mem_filter]
    exact ⟨hv, by simp [hc]⟩
  · intro v hv hm hc
    rw [hfil, List.mem_filter]
    rintro ⟨-, hp⟩
    simp [hm] at hp
    exact hc hp

/-- Closed instance of `C6_unset_keeps_computed`: `UNSET *` over a
store holding a string, a code and a number variable keeps exactly
the code variable. -/
theorem C6_unset_keeps_computed_witness :
    ((⟨"Sys".toList, VarKind.codeVar⟩ : t_mosSystemVariable) ∈
      ([⟨"Alpha".toList, VarKind.stringVar⟩,
        ⟨"Sys".toList, VarKind.codeVar⟩,
        ⟨"Num".toList, VarKind.numberVar⟩] :
          List t_mosSystemVariable)) ∧
    (⟨"Sys".toList, VarKind.codeVar⟩ : t_mosSystemVariable) ∈
      (mos_cmdUNSET (some "*".toList)
        [⟨"Alpha".toList, VarKind.stringVar⟩,
         ⟨"Sys".toList, VarKind.codeVar⟩,
         ⟨"Num".toList, VarKind.numberVar⟩]).2 ∧
    matchPat "*".toList "Alpha".toList = true ∧
    (⟨"Alpha".toList, VarKind.stringVar⟩ : t_mosSystemVariable) ∉
      (mos_cmdUNSET (some "*".toList)
        [⟨"Alpha".toList, VarKind.stringVar⟩,
         ⟨"Sys".toList, VarKind.codeVar⟩,
         ⟨"Num".toList, VarKind.numberVar⟩]).2 :=
  ⟨by simp,
   (C6_unset_keeps_computed "*".toList _).2.2.1 _ (by simp) rfl,
   by simp [matchPat],
   (C6_unset_keeps_computed "*".toList _).2.2.2 _ (by simp)
     (by simp [matchPat]) (by simp)⟩

/-- C9: when the trimmed line is empty, starts with `#`, or starts
with `|` followed by a space, `mos_exec` returns `FR_OK` with an
empty event trace — no handler dispatch, no search, no load. -/
theorem C9_comment_lines_noop (env : ExecEnv) (buf : List Char)
    (in_mos : Bool) (mem : Nat → Nat) (p : Nat)
    (htr : (mos_trim buf (some 0)).2 = some p)
    (hc : charAt (mos_trim buf (some 0)).1 p = '#' ∨
      charAt (mos_trim buf (some 0)).1 p = NUL ∨
      (charAt (mos_trim buf (some 0)).1 p = '|' ∧
        charAt (mos_trim buf (some 0)).1 (p + 1) = ' ')) :
    mos_exec env buf in_mos mem = (FR_OK, []) := by
  unfold mos_exec
  rcases hk : mos_trim buf (some 0) with ⟨b1, p?⟩
  rw [hk] at htr hc
  simp only at htr hc
  cases p? with
  | none => simp at htr
  | some q =>
    simp only [Option.some.injEq] at htr
    subst htr
    simp only
    rw [if_pos hc]

/-- Closed instance of `C9_comment_lines_noop`: the line `"  # hi"`
is a no-op success. -/
theorem C9_comment_lines_noop_witness :
    ((mos_trim "  # hi".toList (some 0)).2 = some 2) ∧
    (charAt (mos_trim "  # hi".toList (some 0)).1 2 = '#' ∨
      charAt (mos_trim "  # hi".toList (some 0)).1 2 = NUL ∨
      (charAt (mos_trim "  # hi".toList (some 0)).1 2 = '|' ∧
        charAt (mos_trim "  # hi".toList (some 0)).1 3 = ' ')) ∧
    mos_exec
      ⟨fun _ _ => false, fun _ _ => 0,
       ⟨fun _ => FR_NO_FILE, fun _ => [], fun _ => FR_OK⟩,
       fun _ _ => 0, fun _ _ => 0, ⟨0, 0, 0, 0⟩⟩
      "  # hi".toList true (fun _ => 0) = (FR_OK, []) :=
  ⟨by decide, by decide,
   C9_comment_lines_noop
     ⟨fun _ _ => false, fun _ _ => 0,
      ⟨fun _ => FR_NO_FILE, fun _ => [], fun _ => FR_OK⟩,
      fun _ _ => 0, fun _ _ => 0, ⟨0, 0, 0, 0⟩⟩
     "  # hi".toList true (fun _ => 0) 2 (by decide) (by decide)⟩

/-- C1: evaluating `mos_exec` on the line `"FOO"`, whose first token
matches no command-table entry, shows the `cmd->func` field being read
through the NULL descriptor pointer (the `derefNullCmd` event opens
the trace) before the `cmd != NULL` test; no handler is invoked and
the external-program search runs — the claim's "reading no field of
any (absent) command descriptor" is violated by the code. -/
theorem C1_null_descriptor_field_read :
    mos_getCommand (fun _ _ => false) "FOO".toList = none ∧
    mos_exec
      ⟨fun _ _ => false, fun _ _ => 0,
       ⟨fun _ => FR_NO_FILE, fun _ => [], fun _ => FR_OK⟩,
       fun _ _ => 0, fun _ _ => 0, ⟨0, 0, 0, 0⟩⟩
      "FOO".toList true (fun _ => 0) =
      (MOS_INVALID_COMMAND,
       [MosEvent.derefNullCmd,
        MosEvent.loadAttempt ("/mos/FOO.bin".toList),
        MosEvent.loadAttempt ("FOO.bin".toList),
        MosEvent.loadAttempt ("/bin/FOO.bin".toList)]) :=
  ⟨by decide, by decide⟩

/-- C3 counterexample: with the `/mos` candidate failing with
`FR_DISK_ERR` (a medium failure, neither not-found code) and the
current-directory candidate loadable, an interactive `mos_exec` does
*not* stop and propagate the disk error as the claim states: it goes
on to load and dispatch the second candidate (result 42, a second
`loadAttempt` in the trace). -/
theorem C3_error_stops_search_counterexample :
    mos_exec
      ⟨fun _ _ => false, fun _ _ => 0,
       ⟨fun q => if q = "/mos/FOO.bin".toList then FR_DISK_ERR else FR_OK,
        fun _ => List.replicate 64 0 ++ [77, 79, 83, 0, 0],
        fun _ => FR_OK⟩,
       fun _ _ => 42, fun _ _ => 43, ⟨10, 5, 100000, 200000⟩⟩
      "FOO".toList true (fun _ => 0) =
      (42,
       [MosEvent.derefNullCmd,
        MosEvent.loadAttempt ("/mos/FOO.bin".toList),
        MosEvent.loadAttempt ("FOO.bin".toList),
        MosEvent.ranBin 200000]) ∧
    ¬ (42 = FR_DISK_ERR) :=
  ⟨by decide, by decide⟩

/-- The over-long-name rejection of the external-program search. -/
lemma execSearch_len (env : ExecEnv) (tok : List Char) (cur : Nat)
    (in_mos : Bool) (mem : Nat → Nat) (evts : List MosEvent)
    (h : tok.length > 246) :
    execSearch env tok cur in_mos mem evts = (MOS_INVALID_COMMAND, evts) := by
  unfold execSearch
  rw [if_pos h]

/-- Search stop on first-candidate success: the loaded moslet is
dispatched at the moslet load address. -/
lemma execSearch_c1_ok (env : ExecEnv) (tok : List Char) (cur : Nat)
    (in_mos : Bool) (mem : Nat → Nat) (evts : List MosEvent)
    (hlen : ¬ tok.length > 246)
    (h1 : (mos_LOAD env.fs env.cfg ("/mos/".toList ++ tok ++ ".bin".toList)
      env.cfg.starLoadAddress 0 mem).1 = FR_OK) :
    execSearch env tok cur in_mos mem evts =
      (mos_runBin env.ex16 env.ex24
        (mos_LOAD env.fs env.cfg ("/mos/".toList ++ tok ++ ".bin".toList)
          env.cfg.starLoadAddress 0 mem).2 env.cfg.starLoadAddress cur,
       evts ++ [MosEvent.loadAttempt ("/mos/".toList ++ tok ++ ".bin".toList),
         MosEvent.ranBin env.cfg.starLoadAddress]) := by
  simp only [execSearch]
  rw [if_neg hlen, if_pos h1]
  simp

/-- Search stop on a first-candidate `MOS_OVERLAPPING_SYSTEM`. -/
lemma execSearch_c1_overlap (env : ExecEnv) (tok : List Char) (cur : Nat)
    (in_mos : Bool) (mem : Nat → Nat) (evts : List MosEvent)
    (hlen : ¬ tok.length > 246)
    (h1 : (mos_LOAD env.fs env.cfg ("/mos/".toList ++ tok ++ ".bin".toList)
      env.cfg.starLoadAddress 0 mem).1 = MOS_OVERLAPPING_SYSTEM) :
    execSearch env tok cur in_mos mem evts =
      (MOS_OVERLAPPING_SYSTEM,
       evts ++ [MosEvent.loadAttempt
         ("/mos/".toList ++ tok ++ ".bin".toList)]) := by
  simp only [execSearch]
  rw [if_neg hlen, if_neg (by rw [h1]; decide), if_pos h1, h1]

/-- Batch invocation: only the `/mos` candidate is tried, and its
outcome is final — not-found maps to `MOS_INVALID_COMMAND`, any other
failure (e.g. a medium failure) is returned as is. -/
lemma execSearch_c1_batch (env : ExecEnv) (tok : List Char) (cur : Nat)
    (mem : Nat → Nat) (evts : List MosEvent)
    (hlen : ¬ tok.length > 246)
    (h1 : ¬ (mos_LOAD env.fs env.cfg ("/mos/".toList ++ tok ++ ".bin".toList)
      env.cfg.starLoadAddress 0 mem).1 = FR_OK)
    (h2 : ¬ (mos_LOAD env.fs env.cfg ("/mos/".toList ++ tok ++ ".bin".toList)
      env.cfg.starLoadAddress 0 mem).1 = MOS_OVERLAPPING_SYSTEM) :
    execSearch env tok cur false mem evts =
      (if (mos_LOAD env.fs env.cfg ("/mos/".toList ++ tok ++ ".bin".toList)
            env.cfg.starLoadAddress 0 mem).1 = FR_NO_FILE ∨
          (mos_LOAD env.fs env.cfg ("/mos/".toList ++ tok ++ ".bin".toList)
            env.cfg.starLoadAddress 0 mem).1 = FR_NO_PATH then
        MOS_INVALID_COMMAND
      else
        (mos_LOAD env.fs env.cfg ("/mos/".toList ++ tok ++ ".bin".toList)
          env.cfg.starLoadAddress 0 mem).1,
       evts ++ [MosEvent.loadAttempt
         ("/mos/".toList ++ tok ++ ".bin".toList)]) := by
  simp only [execSearch]
  rw [if_neg hlen, if_neg h1, if_neg h2, if_neg Bool.false_ne_true]
  split
  · rfl
  · rfl

/-- Interactive search, first candidate failed with any code other
than success or the safety violation (including a medium failure):
the search *continues* with the current-directory candidate; a
successful second load is dispatched at the default address. -/
lemma execSearch_c2_ok (env : ExecEnv) (tok : List Char) (cur : Nat)
    (mem : Nat → Nat) (evts : List MosEvent)
    (hlen : ¬ tok.length > 246)
    (h1 : ¬ (mos_LOAD env.fs env.cfg ("/mos/".toList ++ tok ++ ".bin".toList)
      env.cfg.starLoadAddress 0 mem).1 = FR_OK)
    (h2 : ¬ (mos_LOAD env.fs env.cfg ("/mos/".toList ++ tok ++ ".bin".toList)
      env.cfg.starLoadAddress 0 mem).1 = MOS_OVERLAPPING_SYSTEM)
    (h3 : (mos_LOAD env.fs env.cfg (tok ++ ".bin".toList)
      env.cfg.defaultLoadAddress 0
      (mos_LOAD env.fs env.cfg ("/mos/".toList ++ tok ++ ".bin".toList)
        env.cfg.starLoadAddress 0 mem).2).1 = FR_OK) :
    execSearch env tok cur true mem evts =
      (mos_runBin env.ex16 env.ex24
        (mos_LOAD env.fs env.cfg (tok ++ ".bin".toList)
          env.cfg.defaultLoadAddress 0
          (mos_LOAD env.fs env.cfg ("/mos/".toList ++ tok ++ ".bin".toList)
            env.cfg.starLoadAddress 0 mem).2).2
        env.cfg.defaultLoadAddress cur,
       evts ++ [MosEvent.loadAttempt ("/mos/".toList ++ tok ++ ".bin".toList),
         MosEvent.loadAttempt (tok ++ ".bin".toList),
         MosEvent.ranBin env.cfg.defaultLoadAddress]) := by
  simp only [execSearch]
  rw [if_neg hlen, if_neg h1, if_neg h2, if_pos trivial, if_pos h3]
  simp

/-- Interactive search, second candidate reports the safety
violation: stop and return it. -/
lemma execSearch_c2_overlap (env : ExecEnv) (tok : List Char) (cur : Nat)
    (mem : Nat → Nat) (evts : List MosEvent)
    (hlen : ¬ tok.length > 246)
    (h1 : ¬ (mos_LOAD env.fs env.cfg ("/mos/".toList ++ tok ++ ".bin".toList)
      env.cfg.starLoadAddress 0 mem).1 = FR_OK)
    (h2 : ¬ (mos_LOAD env.fs env.cfg ("/mos/".toList ++ tok ++ ".bin".toList)
      env.cfg.starLoadAddress 0 mem).1 = MOS_OVERLAPPING_SYSTEM)
    (h3 : (mos_LOAD env.fs env.cfg (tok ++ ".bin".toList)
      env.cfg.defaultLoadAddress 0
      (mos_LOAD env.fs env.cfg ("/mos/".toList ++ tok ++ ".bin".toList)
        env.cfg.starLoadAddress 0 mem).2).1 = MOS_OVERLAPPING_SYSTEM) :
    execSearch env tok cur true mem evts =
      (MOS_OVERLAPPING_SYSTEM,
       evts ++ [MosEvent.loadAttempt ("/mos/".toList ++ tok ++ ".bin".toList),
         MosEvent.loadAttempt (tok ++ ".bin".toList)]) := by
  simp only [execSearch]
  rw [if_neg hlen, if_neg h1, if_neg h2, if_pos trivial,
    if_neg (by rw [h3]; decide), if_pos h3, h3]
  simp

/-- Interactive search, third candidate (`/bin`): success is
dispatched; the safety violation is returned; otherwise the final
outcome maps not-found codes to `MOS_INVALID_COMMAND` and propagates
any other error of this last attempt. -/
lemma execSearch_c3 (env : ExecEnv) (tok : List Char) (cur : Nat)
    (mem : Nat → Nat) (evts : List MosEvent)
    (hlen : ¬ tok.length > 246)
    (h1 : ¬ (mos_LOAD env.fs env.cfg ("/mos/".toList ++ tok ++ ".bin".toList)
      env.cfg.starLoadAddress 0 mem).1 = FR_OK)
    (h2 : ¬ (mos_LOAD env.fs env.cfg ("/mos/".toList ++ tok ++ ".bin".toList)
      env.cfg.starLoadAddress 0 mem).1 = MOS_OVERLAPPING_SYSTEM)
    (h3 : ¬ (mos_LOAD env.fs env.cfg (tok ++ ".bin".toList)
      env.cfg.defaultLoadAddress 0
      (mos_LOAD env.fs env.cfg ("/mos/".toList ++ tok ++ ".bin".toList)
        env.cfg.starLoadAddress 0 mem).2).1 = FR_OK)
    (h4 : ¬ (mos_LOAD env.fs env.cfg (tok ++ ".bin".toList)
      env.cfg.defaultLoadAddress 0
      (mos_LOAD env.fs env.cfg ("/mos/".toList ++ tok ++ ".bin".toList)
        env.cfg.starLoadAddress 0 mem).2).1 = MOS_OVERLAPPING_SYSTEM) :
    ((mos_LOAD env.fs env.cfg ("/bin/".toList ++ tok ++ ".bin".toList)
        env.cfg.defaultLoadAddress 0
        (mos_LOAD env.fs env.cfg (tok ++ ".bin".toList)
          env.cfg.defaultLoadAddress 0
          (mos_LOAD env.fs env.cfg ("/mos/".toList ++ tok ++ ".bin".toList)
            env.cfg.starLoadAddress 0 mem).2).2).1 = FR_OK →
      execSearch env tok cur true mem evts =
        (mos_runBin env.ex16 env.ex24
          (mos_LOAD env.fs env.cfg ("/bin/".toList ++ tok ++ ".bin".toList)
            env.cfg.defaultLoadAddress 0
            (mos_LOAD env.fs env.cfg (tok ++ ".bin".toList)
              env.cfg.defaultLoadAddress 0
              (mos_LOAD env.fs env.cfg
                ("/mos/".toList ++ tok ++ ".bin".toList)
                env.cfg.starLoadAddress 0 mem).2).2).2
          env.cfg.defaultLoadAddress cur,
         evts ++
           [MosEvent.loadAttempt ("/mos/".toList ++ tok ++ ".bin".toList),
            MosEvent.loadAttempt (tok ++ ".bin".toList),
            MosEvent.loadAttempt ("/bin/".toList ++ tok ++ ".bin".toList),
            MosEvent.ranBin env.cfg.defaultLoadAddress])) ∧
    ((mos_LOAD env.fs env.cfg ("/bin/".toList ++ tok ++ ".bin".toList)
        env.cfg.defaultLoadAddress 0
        (mos_LOAD env.fs env.cfg (tok ++ ".bin".toList)
          env.cfg.defaultLoadAddress 0
          (mos_LOAD env.fs env.cfg ("/mos/".toList ++ tok ++ ".bin".toList)
            env.cfg.starLoadAddress 0 mem).2).2).1 = MOS_OVERLAPPING_SYSTEM →
      execSearch env tok cur true mem evts =
        (MOS_OVERLAPPING_SYSTEM,
         evts ++
           [MosEvent.loadAttempt ("/mos/".toList ++ tok ++ ".bin".toList),
            MosEvent.loadAttempt (tok ++ ".bin".toList),
            MosEvent.loadAttempt ("/bin/".toList ++ tok ++ ".bin".toList)])) ∧
    (¬ (mos_LOAD env.fs env.cfg ("/bin/".toList ++ tok ++ ".bin".toList)
        env.cfg.defaultLoadAddress 0
        (mos_LOAD env.fs env.cfg (tok ++ ".bin".toList)
          env.cfg.defaultLoadAddress 0
          (mos_LOAD env.fs env.cfg ("/mos/".toList ++ tok ++ ".bin".toList)
            env.cfg.starLoadAddress 0 mem).2).2).1 = FR_OK →
     ¬ (mos_LOAD env.fs env.cfg ("/bin/".toList ++ tok ++ ".bin".toList)
        env.cfg.defaultLoadAddress 0
        (mos_LOAD env.fs env.cfg (tok ++ ".bin".toList)
          env.cfg.defaultLoadAddress 0
          (mos_LOAD env.fs env.cfg ("/mos/".toList ++ tok ++ ".bin".toList)
            env.cfg.starLoadAddress 0 mem).2).2).1 = MOS_OVERLAPPING_SYSTEM →
      execSearch env tok cur true mem evts =
        (if (mos_LOAD env.fs env.cfg ("/bin/".toList ++ tok ++ ".bin".toList)
              env.cfg.defaultLoadAddress 0
              (mos_LOAD env.fs env.cfg (tok ++ ".bin".toList)
                env.cfg.defaultLoadAddress 0
                (mos_LOAD env.fs env.cfg
                  ("/mos/".toList ++ tok ++ ".bin".toList)
                  env.cfg.starLoadAddress 0 mem).2).2).1 = FR_NO_FILE ∨
            (mos_LOAD env.fs env.cfg ("/bin/".toList ++ tok ++ ".bin".toList)
              env.cfg.defaultLoadAddress 0
              (mos_LOAD env.fs env.cfg (tok ++ ".bin".toList)
                env.cfg.defaultLoadAddress 0
                (mos_LOAD env.fs env.cfg
                  ("/mos/".toList ++ tok ++ ".bin".toList)
                  env.cfg.starLoadAddress 0 mem).2).2).1 = FR_NO_PATH then
          MOS_INVALID_COMMAND
        else
          (mos_LOAD env.fs env.cfg ("/bin/".toList ++ tok ++ ".bin".toList)
            env.cfg.defaultLoadAddress 0
            (mos_LOAD env.fs env.cfg (tok ++ ".bin".toList)
              env.cfg.defaultLoadAddress 0
              (mos_LOAD env.fs env.cfg ("/mos/".toList ++ tok ++ ".bin".toList)
                env.cfg.starLoadAddress 0 mem).2).2).1,
         evts ++
           [MosEvent.loadAttempt ("/mos/".toList ++ tok ++ ".bin".toList),
            MosEvent.loadAttempt (tok ++ ".bin".toList),
            MosEvent.loadAttempt ("/bin/".toList ++ tok ++ ".bin".toList)])) := by
  refine ⟨?_, ?_, ?_⟩
  · intro h5
    simp only [execSearch]
    rw [if_neg hlen, if_neg h1, if_neg h2, if_pos trivial, if_neg h3,
      if_neg h4, if_pos h5]
    simp
  · intro h5
    simp only [execSearch]
    rw [if_neg hlen, if_neg h1, if_neg h2, if_pos trivial, if_neg h3,
      if_neg h4, if_neg (by rw [h5]; decide), if_pos h5, h5]
    simp
  · intro h5 h6
    simp only [execSearch]
    rw [if_neg hlen, if_neg h1, if_neg h2, if_pos trivial, if_neg h3,
      if_neg h4, if_neg h5, if_neg h6]
    split
    · simp
    · simp

/-- When the first token of a non-comment line resolves to no
command-table entry, `mos_exec` reads the NULL descriptor's `func`
field and runs the external-program search on the token. -/
lemma mos_exec_search_bridge (env : ExecEnv) (buf : List Char)
    (in_mos : Bool) (mem : Nat → Nat) (p : Nat) (b2 : List Char)
    (t cur : Nat)
    (htr : (mos_trim buf (some 0)).2 = some p)
    (hc : ¬ (charAt (mos_trim buf (some 0)).1 p = '#' ∨
      charAt (mos_trim buf (some 0)).1 p = NUL ∨
      (charAt (mos_trim buf (some 0)).1 p = '|' ∧
        charAt (mos_trim buf (some 0)).1 (p + 1) = ' ')))
    (htk : mos_strtok_r (mos_trim buf (some 0)).1 (some p) [' '] 0 =
      (b2, some t, cur))
    (hnc : mos_getCommand env.matcher (cString b2 t) = none) :
    mos_exec env buf in_mos mem =
      execSearch env (cString b2 t) cur in_mos mem
        [MosEvent.derefNullCmd] := by
  unfold mos_exec
  rcases hk : mos_trim buf (some 0) with ⟨b1, p?⟩
  rw [hk] at htr hc htk
  simp only at htr hc htk
  cases p? with
  | none => simp at htr
  | some q =>
    simp only [Option.some.injEq] at htr
    subst htr
    simp only
    rw [if_neg hc, htk]
    simp only
    rw [hnc]

/-- C3 (amended): for a non-built-in command `mos_exec` runs the
external-program search on the first token; the search rejects
over-long names, then tries `/mos/<name>.bin` and — interactively
only — `<name>.bin` and `/bin/<name>.bin` in that order, stopping at
the first successful load (dispatched) or the first
`MOS_OVERLAPPING_SYSTEM` (returned).  File-not-found, path-not-found
*and every other load error* (e.g. a medium failure) all continue to
the next candidate; after the last candidate tried, a not-found
outcome yields `MOS_INVALID_COMMAND` and any other error code of that
last attempt is propagated; in batch mode only the `/mos` candidate
is tried. -/
theorem C3_search_protocol :
    (∀ (env : ExecEnv) (buf : List Char) (in_mos : Bool) (mem : Nat → Nat)
       (p : Nat) (b2 : List Char) (t cur : Nat),
      (mos_trim buf (some 0)).2 = some p →
      ¬ (charAt (mos_trim buf (some 0)).1 p = '#' ∨
        charAt (mos_trim buf (some 0)).1 p = NUL ∨
        (charAt (mos_trim buf (some 0)).1 p = '|' ∧
          charAt (mos_trim buf (some 0)).1 (p + 1) = ' ')) →
      mos_strtok_r (mos_trim buf (some 0)).1 (some p) [' '] 0 =
        (b2, some t, cur) →
      mos_getCommand env.matcher (cString b2 t) = none →
      mos_exec env buf in_mos mem =
        execSearch env (cString b2 t) cur in_mos mem
          [MosEvent.derefNullCmd]) ∧
    (∀ (env : ExecEnv) (tok : List Char) (cur : Nat) (in_mos : Bool)
       (mem : Nat → Nat) (evts : List MosEvent),
      tok.length > 246 →
      execSearch env tok cur in_mos mem evts = (MOS_INVALID_COMMAND, evts)) ∧
    (∀ (env : ExecEnv) (tok : List Char) (cur : Nat) (in_mos : Bool)
       (mem : Nat → Nat) (evts : List MosEvent),
      ¬ tok.length > 246 →
      (mos_LOAD env.fs env.cfg ("/mos/".toList ++ tok ++ ".bin".toList)
        env.cfg.starLoadAddress 0 mem).1 = FR_OK →
      execSearch env tok cur in_mos mem evts =
        (mos_runBin env.ex16 env.ex24
          (mos_LOAD env.fs env.cfg ("/mos/".toList ++ tok ++ ".bin".toList)
            env.cfg.starLoadAddress 0 mem).2 env.cfg.starLoadAddress cur,
         evts ++
           [MosEvent.loadAttempt ("/mos/".toList ++ tok ++ ".bin".toList),
            MosEvent.ranBin env.cfg.starLoadAddress])) ∧
    (∀ (env : ExecEnv) (tok : List Char) (cur : Nat) (in_mos : Bool)
       (mem : Nat → Nat) (evts : List MosEvent),
      ¬ tok.length > 246 →
      (mos_LOAD env.fs env.cfg ("/mos/".toList ++ tok ++ ".bin".toList)
        env.cfg.starLoadAddress 0 mem).1 = MOS_OVERLAPPING_SYSTEM →
      execSearch env tok cur in_mos mem evts =
        (MOS_OVERLAPPING_SYSTEM,
         evts ++ [MosEvent.loadAttempt
           ("/mos/".toList ++ tok ++ ".bin".toList)])) ∧
    (∀ (env : ExecEnv) (tok : List Char) (cur : Nat) (mem : Nat → Nat)
       (evts : List MosEvent),
      ¬ tok.length > 246 →
      ¬ (mos_LOAD env.fs env.cfg ("/mos/".toList ++ tok ++ ".bin".toList)
        env.cfg.starLoadAddress 0 mem).1 = FR_OK →
      ¬ (mos_LOAD env.fs env.cfg ("/mos/".toList ++ tok ++ ".bin".toList)
        env.cfg.starLoadAddress 0 mem).1 = MOS_OVERLAPPING_SYSTEM →
      execSearch env tok cur false mem evts =
        (if (mos_LOAD env.fs env.cfg ("/mos/".toList ++ tok ++ ".bin".toList)
              env.cfg.starLoadAddress 0 mem).1 = FR_NO_FILE ∨
            (mos_LOAD env.fs env.cfg ("/mos/".toList ++ tok ++ ".bin".toList)
              env.cfg.starLoadAddress 0 mem).1 = FR_NO_PATH then
          MOS_INVALID_COMMAND
        else
          (mos_LOAD env.fs env.cfg ("/mos/".toList ++ tok ++ ".bin".toList)
            env.cfg.starLoadAddress 0 mem).1,
         evts ++ [MosEvent.loadAttempt
           ("/mos/".toList ++ tok ++ ".bin".toList)])) ∧
    (∀ (env : ExecEnv) (tok : List Char) (cur : Nat) (mem : Nat → Nat)
       (evts : List MosEvent),
      ¬ tok.length > 246 →
      ¬ (mos_LOAD env.fs env.cfg ("/mos/".toList ++ tok ++ ".bin".toList)
        env.cfg.starLoadAddress 0 mem).1 = FR_OK →
      ¬ (mos_LOAD env.fs env.cfg ("/mos/".toList ++ tok ++ ".bin".toList)
        env.cfg.starLoadAddress 0 mem).1 = MOS_OVERLAPPING_SYSTEM →
      (mos_LOAD env.fs env.cfg (tok ++ ".bin".toList)
        env.cfg.defaultLoadAddress 0
        (mos_LOAD env.fs env.cfg ("/mos/".toList ++ tok ++ ".bin".toList)
          env.cfg.starLoadAddress 0 mem).2).1 = FR_OK →
      execSearch env tok cur true mem evts =
        (mos_runBin env.ex16 env.ex24
          (mos_LOAD env.fs env.cfg (tok ++ ".bin".toList)
            env.cfg.defaultLoadAddress 0
            (mos_LOAD env.fs env.cfg ("/mos/".toList ++ tok ++ ".bin".toList)
              env.cfg.starLoadAddress 0 mem).2).2
          env.cfg.defaultLoadAddress cur,
         evts ++
           [MosEvent.loadAttempt ("/mos/".toList ++ tok ++ ".bin".toList),
            MosEvent.loadAttempt (tok ++ ".bin".toList),
            MosEvent.ranBin env.cfg.defaultLoadAddress])) ∧
    (∀ (env : ExecEnv) (tok : List Char) (cur : Nat) (mem : Nat → Nat)
       (evts : List MosEvent),
      ¬ tok.length > 246 →
      ¬ (mos_LOAD env.fs env.cfg ("/mos/".toList ++ tok ++ ".bin".toList)
        env.cfg.starLoadAddress 0 mem).1 = FR_OK →
      ¬ (mos_LOAD env.fs env.cfg ("/mos/".toList ++ tok ++ ".bin".toList)
        env.cfg.starLoadAddress 0 mem).1 = MOS_OVERLAPPING_SYSTEM →
      (mos_LOAD env.fs env.cfg (tok ++ ".bin".toList)
        env.cfg.defaultLoadAddress 0
        (mos_LOAD env.fs env.cfg ("/mos/".toList ++ tok ++ ".bin".toList)
          env.cfg.starLoadAddress 0 mem).2).1 = MOS_OVERLAPPING_SYSTEM →
      execSearch env tok cur true mem evts =
        (MOS_OVERLAPPING_SYSTEM,
         evts ++
           [MosEvent.loadAttempt ("/mos/".toList ++ tok ++ ".bin".toList),
            MosEvent.loadAttempt (tok ++ ".bin".toList)])) ∧
    (∀ (env : ExecEnv) (tok : List Char) (cur : Nat) (mem : Nat → Nat)
       (evts : List MosEvent),
      ¬ tok.length > 246 →
      ¬ (mos_LOAD env.fs env.cfg ("/mos/".toList ++ tok ++ ".bin".toList)
        env.cfg.starLoadAddress 0 mem).1 = FR_OK →
      ¬ (mos_LOAD env.fs env.cfg ("/mos/".toList ++ tok ++ ".bin".toList)
        env.cfg.starLoadAddress 0 mem).1 = MOS_OVERLAPPING_SYSTEM →
      ¬ (mos_LOAD env.fs env.cfg (tok ++ ".bin".toList)
        env.cfg.defaultLoadAddress 0
        (mos_LOAD env.fs env.cfg ("/mos/".toList ++ tok ++ ".bin".toList)
          env.cfg.starLoadAddress 0 mem).2).1 = FR_OK →
      ¬ (mos_LOAD env.fs env.cfg (tok ++ ".bin".toList)
        env.cfg.defaultLoadAddress 0
        (mos_LOAD env.fs env.cfg ("/mos/".toList ++ tok ++ ".bin".toList)
          env.cfg.starLoadAddress 0 mem).2).1 = MOS_OVERLAPPING_SYSTEM →
      ((mos_LOAD env.fs env.cfg ("/bin/".toList ++ tok ++ ".bin".toList)
          env.cfg.defaultLoadAddress 0
          (mos_LOAD env.fs env.cfg (tok ++ ".bin".toList)
            env.cfg.defaultLoadAddress 0
            (mos_LOAD env.fs env.cfg ("/mos/".toList ++ tok ++ ".bin".toList)
              env.cfg.starLoadAddress 0 mem).2).2).1 = FR_OK →
        execSearch env tok cur true mem evts =
          (mos_runBin env.ex16 env.ex24
            (mos_LOAD env.fs env.cfg ("/bin/".toList ++ tok ++ ".bin".toList)
              env.cfg.defaultLoadAddress 0
              (mos_LOAD env.fs env.cfg (tok ++ ".bin".toList)
                env.cfg.defaultLoadAddress 0
                (mos_LOAD env.fs env.cfg
                  ("/mos/".toList ++ tok ++ ".bin".toList)
                  env.cfg.starLoadAddress 0 mem).2).2).2
            env.cfg.defaultLoadAddress cur,
           evts ++
             [MosEvent.loadAttempt ("/mos/".toList ++ tok ++ ".bin".toList),
              MosEvent.loadAttempt (tok ++ ".bin".toList),
              MosEvent.loadAttempt ("/bin/".toList ++ tok ++ ".bin".toList),
              MosEvent.ranBin env.cfg.defaultLoadAddress])) ∧
      ((mos_LOAD env.fs env.cfg ("/bin/".toList ++ tok ++ ".bin".toList)
          env.cfg.defaultLoadAddress 0
          (mos_LOAD env.fs env.cfg (tok ++ ".bin".toList)
            env.cfg.defaultLoadAddress 0
            (mos_LOAD env.fs env.cfg ("/mos/".toList ++ tok ++ ".bin".toList)
              env.cfg.starLoadAddress 0 mem).2).2).1 =
          MOS_OVERLAPPING_SYSTEM →
        execSearch env tok cur true mem evts =
          (MOS_OVERLAPPING_SYSTEM,
           evts ++
             [MosEvent.loadAttempt ("/mos/".toList ++ tok ++ ".bin".toList),
              MosEvent.loadAttempt (tok ++ ".bin".toList),
              MosEvent.loadAttempt
                ("/bin/".toList ++ tok ++ ".bin".toList)])) ∧
      (¬ (mos_LOAD env.fs env.cfg ("/bin/".toList ++ tok ++ ".bin".toList)
          env.cfg.defaultLoadAddress 0
          (mos_LOAD env.fs env.cfg (tok ++ ".bin".toList)
            env.cfg.defaultLoadAddress 0
            (mos_LOAD env.fs env.cfg ("/mos/".toList ++ tok ++ ".bin".toList)
              env.cfg.starLoadAddress 0 mem).2).2).1 = FR_OK →
       ¬ (mos_LOAD env.fs env.cfg ("/bin/".toList ++ tok ++ ".bin".toList)
          env.cfg.defaultLoadAddress 0
          (mos_LOAD env.fs env.cfg (tok ++ ".bin".toList)
            env.cfg.defaultLoadAddress 0
            (mos_LOAD env.fs env.cfg ("/mos/".toList ++ tok ++ ".bin".toList)
              env.cfg.starLoadAddress 0 mem).2).2).1 =
          MOS_OVERLAPPING_SYSTEM →
        execSearch env tok cur true mem evts =
          (if (mos_LOAD env.fs env.cfg
                ("/bin/".toList ++ tok ++ ".bin".toList)
                env.cfg.defaultLoadAddress 0
                (mos_LOAD env.fs env.cfg (tok ++ ".bin".toList)
                  env.cfg.defaultLoadAddress 0
                  (mos_LOAD env.fs env.cfg
                    ("/mos/".toList ++ tok ++ ".bin".toList)
                    env.cfg.starLoadAddress 0 mem).2).2).1 = FR_NO_FILE ∨
              (mos_LOAD env.fs env.cfg
                ("/bin/".toList ++ tok ++ ".bin".toList)
                env.cfg.defaultLoadAddress 0
                (mos_LOAD env.fs env.cfg (tok ++ ".bin".toList)
                  env.cfg.defaultLoadAddress 0
                  (mos_LOAD env.fs env.cfg
                    ("/mos/".toList ++ tok ++ ".bin".toList)
                    env.cfg.starLoadAddress 0 mem).2).2).1 = FR_NO_PATH then
            MOS_INVALID_COMMAND
          else
            (mos_LOAD env.fs env.cfg ("/bin/".toList ++ tok ++ ".bin".toList)
              env.cfg.defaultLoadAddress 0
              (mos_LOAD env.fs env.cfg (tok ++ ".bin".toList)
                env.cfg.defaultLoadAddress 0
                (mos_LOAD env.fs env.cfg
                  ("/mos/".toList ++ tok ++ ".bin".toList)
                  env.cfg.starLoadAddress 0 mem).2).2).1,
           evts ++
             [MosEvent.loadAttempt ("/mos/".toList ++ tok ++ ".bin".toList),
              MosEvent.loadAttempt (tok ++ ".bin".toList),
              MosEvent.loadAttempt
                ("/bin/".toList ++ tok ++ ".bin".toList)]))) :=
  ⟨mos_exec_search_bridge, execSearch_len,
   fun env tok cur in_mos mem evts hlen h1 =>
     execSearch_c1_ok env tok cur in_mos mem evts hlen h1,
   fun env tok cur in_mos mem evts hlen h1 =>
     execSearch_c1_overlap env tok cur in_mos mem evts hlen h1,
   fun env tok cur mem evts hlen h1 h2 =>
     execSearch_c1_batch env tok cur mem evts hlen h1 h2,
   fun env tok cur mem evts hlen h1 h2 h3 =>
     execSearch_c2_ok env tok cur mem evts hlen h1 h2 h3,
   fun env tok cur mem evts hlen h1 h2 h3 =>
     execSearch_c2_overlap env tok cur mem evts hlen h1 h2 h3,
   fun env tok cur mem evts hlen h1 h2 h3 h4 =>
     execSearch_c3 env tok cur mem evts hlen h1 h2 h3 h4⟩

set_option maxRecDepth 4000 in
/-- Closed instance of `C3_search_protocol`: a 247-character name is
rejected with `MOS_INVALID_COMMAND` without any load attempt. -/
theorem C3_search_protocol_witness :
    ((List.replicate 247 'a').length > 246) ∧
    execSearch
      ⟨fun _ _ => false, fun _ _ => 0,
       ⟨fun _ => FR_NO_FILE, fun _ => [], fun _ => FR_OK⟩,
       fun _ _ => 0, fun _ _ => 0, ⟨0, 0, 0, 0⟩⟩
      (List.replicate 247 'a') 0 true (fun _ => 0) [] =
      (MOS_INVALID_COMMAND, []) :=
  ⟨by decide,
   C3_search_protocol.2.1
     ⟨fun _ _ => false, fun _ _ => 0,
      ⟨fun _ => FR_NO_FILE, fun _ => [], fun _ => FR_OK⟩,
      fun _ _ => 0, fun _ _ => 0, ⟨0, 0, 0, 0⟩⟩
     (List.replicate 247 'a') 0 true (fun _ => 0) [] (by decide)⟩
